import Mathlib

/-!
# Verification of the PokemonAI planning / navigation / battle core

Shallow embedding of the rule-based subsystems of the PokemonAI repository:
the stuck-aware grid `Navigator` (src/agent/core/navigator.py), the
`BattleManager` battle tracker (src/agent/core/battle_manager.py) and the
hierarchical `GoalPlanner` (src/agent/planning/goal_planner.py).

Python dictionaries are modelled as insertion-ordered association lists
(Python dicts preserve insertion order, which the goal selector relies on);
file I/O (loading the warp registry, type chart and the persisted goal
document) is modelled by carrying the loaded data in the state; `_save`
writes are no-ops on the in-memory state and are therefore dropped.
Numeric multipliers from the type chart are modelled as rationals: the
values appearing in the data (0, 0.25, 0.5, 1, 2, 4) and their products are
dyadic and exact in the source's double arithmetic.
-/

set_option maxRecDepth 4000

namespace PokemonAI

/-- First-match association-list lookup: the model of Python `dict.get`. -/
def alookup {α : Type} : List (String × α) → String → Option α
  | [], _ => none
  | (k, v) :: rest, key => if k = key then some v else alookup rest key

/-! ## Navigator (src/agent/core/navigator.py) -/

/-- The four direction strings the navigator emits. -/
inductive Dir
  | UP
  | DOWN
  | LEFT
  | RIGHT
deriving DecidableEq, Repr

/-- One entry of a map's `landmarks` mapping in `data/warp_data.json`. -/
structure Landmark where
  x : Int
  y : Int
  label : Option String
deriving DecidableEq, Repr

/-- One entry of the warp registry: a map's display name and its landmarks. -/
structure MapData where
  name : Option String
  landmarks : List (String × Landmark)
deriving DecidableEq, Repr

/-- The mutable fields of the Python `Navigator` object, plus the loaded
warp registry (`self.warp_data`). -/
structure NavState where
  warp_data : List (String × MapData)
  target : Option (Int × Int)
  target_label : String
  target_map : Int
  active : Bool
  prev_x : Int
  prev_y : Int
  stuck_count : Nat
  stuck_dir_idx : Nat
  detour_dir : Option Dir
  detour_ticks : Nat
  total_stuck : Nat
deriving DecidableEq, Repr

/-- `Navigator.__init__`: fresh navigator over a given warp registry. -/
def Navigator.init (warp : List (String × MapData)) : NavState :=
  { warp_data := warp
    target := none
    target_label := ""
    target_map := -1
    active := false
    prev_x := -1
    prev_y := -1
    stuck_count := 0
    stuck_dir_idx := 0
    detour_dir := none
    detour_ticks := 0
    total_stuck := 0 }

/-- `Navigator.set_target`: look up the landmark registry by map id then
key; on a miss return `false` without touching the state, on a hit install
the target and reset every stuck/detour counter. -/
def set_target (s : NavState) (map_id : Int) (landmark_key : String) :
    Bool × NavState :=
  match alookup s.warp_data (toString map_id) with
  | none => (false, s)
  | some map_data =>
    match alookup map_data.landmarks landmark_key with
    | none => (false, s)
    | some lm =>
      (true,
        { s with
          target := some (lm.x, lm.y)
          target_label := lm.label.getD landmark_key
          target_map := map_id
          active := true
          stuck_count := 0
          prev_x := -1
          prev_y := -1
          stuck_dir_idx := 0
          detour_dir := none
          detour_ticks := 0
          total_stuck := 0 })

/-- `Navigator.cancel`: deactivate and clear target/detour state
(`_stuck_count`, `_prev_*` and `_stuck_dir_idx` are left as they are,
exactly as in the source). -/
def cancel (s : NavState) : NavState :=
  { s with
    active := false
    target := none
    target_label := ""
    target_map := -1
    detour_dir := none
    detour_ticks := 0
    total_stuck := 0 }

/-- `Navigator._start_detour`: commit to a perpendicular direction for
`min(3 + total_stuck * 2, 12)` ticks; the perpendicular axis is chosen
against the dominant axis of the remaining delta and the concrete option is
picked by `stuck_dir_idx % 2`. -/
def start_detour (s : NavState) (dx dy : Int) : Dir × NavState :=
  let detour_len := min (3 + s.total_stuck * 2) 12
  let options : List Dir :=
    if dy.natAbs ≤ dx.natAbs then [Dir.UP, Dir.DOWN] else [Dir.LEFT, Dir.RIGHT]
  let d := options.getD (s.stuck_dir_idx % options.length) Dir.UP
  (d, { s with detour_dir := some d, detour_ticks := detour_len, stuck_count := 0 })

/-- The tail of `Navigator.get_next_direction` after the detour block:
stuck detection, detour trigger, the 15-stuck give-up, and greedy
axis-priority movement.  The fall-through from a finished detour enters
here with `prev` already overwritten by the current position, which is why
the stuck check rereads the state's `prev` fields. -/
def nav_tail (s : NavState) (player_x player_y dx dy : Int) :
    Option Dir × NavState :=
  let stuck_count :=
    if player_x = s.prev_x ∧ player_y = s.prev_y then s.stuck_count + 1 else 0
  let s1 := { s with stuck_count := stuck_count, prev_x := player_x, prev_y := player_y }
  if 3 ≤ s1.stuck_count then
    let s2 := { s1 with total_stuck := s1.total_stuck + 1 }
    let r := start_detour s2 dx dy
    (some r.1, r.2)
  else if 15 ≤ s1.total_stuck then
    (none, cancel s1)
  else if dy.natAbs < dx.natAbs then
    (some (if 0 < dx then Dir.RIGHT else Dir.LEFT), s1)
  else if 0 < dy.natAbs then
    (some (if 0 < dy then Dir.DOWN else Dir.UP), s1)
  else
    (some (if 0 < dx then Dir.RIGHT else Dir.LEFT), s1)

/-- `Navigator.get_next_direction`: emit the next direction toward the
target, or `none` when inactive, on the wrong map, arrived (Chebyshev
distance ≤ 1), or giving up after 15 stuck events. -/
def get_next_direction (s : NavState) (player_x player_y current_map : Int) :
    Option Dir × NavState :=
  match s.target with
  | none => (none, s)
  | some (tx, ty) =>
    if s.active = false then (none, s)
    else if current_map ≠ s.target_map then (none, cancel s)
    else
      let dx := tx - player_x
      let dy := ty - player_y
      if dx.natAbs ≤ 1 ∧ dy.natAbs ≤ 1 then
        (none, { s with active := false, total_stuck := 0 })
      else if 0 < s.detour_ticks then
        if player_x = s.prev_x ∧ player_y = s.prev_y then
          let s1 := { s with
            detour_ticks := 0
            stuck_dir_idx := s.stuck_dir_idx + 1
            stuck_count := 3
            prev_x := player_x
            prev_y := player_y }
          let r := start_detour s1 dx dy
          (some r.1, r.2)
        else
          let s1 := { s with
            detour_ticks := s.detour_ticks - 1
            prev_x := player_x
            prev_y := player_y }
          if 0 < s1.detour_ticks then (s1.detour_dir, s1)
          else nav_tail s1 player_x player_y dx dy
      else nav_tail s player_x player_y dx dy

/-- Composite landmark lookup: warp registry by stringified map id, then the
map's landmark table by key (the two lookups of `set_target`). -/
def lookup_landmark (s : NavState) (map_id : Int) (key : String) : Option Landmark :=
  match alookup s.warp_data (toString map_id) with
  | none => none
  | some map_data => alookup map_data.landmarks key

/-- A small concrete warp registry used for witnesses and counterexamples:
one map `"0"` with one landmark `"home"` at (100, 0). -/
def demoWarp : List (String × MapData) :=
  [("0", { name := some "Pallet Town",
           landmarks := [("home", { x := 100, y := 0, label := some "Home" })] })]

/-- Fresh navigator over the demo registry. -/
def nav_demo : NavState := Navigator.init demoWarp

/-- The navigator state right after `set_target(0, "home")` on the demo
registry: active, heading for (100, 0) on map 0. -/
def nav_run0 : NavState := (set_target nav_demo 0 "home").2

/-- Adversarial environment for the give-up scenario: while a detour is
running, report a position that differs from the previous one (alternating
(0,0) and (0,1)); otherwise report the previous position again, so the
navigator sees no movement. -/
def advPos (s : NavState) : Int × Int :=
  if 0 < s.detour_ticks then
    (if s.prev_x = 0 ∧ s.prev_y = 0 then (0, 1) else (0, 0))
  else (s.prev_x, s.prev_y)

/-- One adversarial tick: feed `advPos` to `get_next_direction` on map 0. -/
def advStep (s : NavState) : NavState :=
  (get_next_direction s (advPos s).1 (advPos s).2 0).2

/-- The navigator state after `n` adversarial ticks from `nav_run0`. -/
def advState (n : Nat) : NavState := advStep^[n] nav_run0

/-- C2 counterexample: after 194 adversarial ticks from a freshly set
target, the navigator is still active on the right map (map 0, target
(100, 0)) and the player at (0, 1) is at Chebyshev distance 100 from the
target, yet `get_next_direction` returns `none` — the cumulative 15-stuck
give-up path, which the claimed iff omits. -/
theorem get_next_direction_giveup_cex :
    (advState 194).active = true ∧
    (advState 194).target = some (100, 0) ∧
    (advState 194).target_map = 0 ∧
    1 < max ((100 : Int) - 0).natAbs ((0 : Int) - 1).natAbs ∧
    (get_next_direction (advState 194) 0 1 0).1 = none := by
  decide

/-- Claim-side predicate: the call reaches the post-detour tail of
`get_next_direction` — no detour is running, or a moving detour is on its
last tick and falls through. -/
def reaches_tail (s : NavState) (x y : Int) : Prop :=
  s.detour_ticks = 0 ∨ (¬(x = s.prev_x ∧ y = s.prev_y) ∧ s.detour_ticks = 1)

/-- Claim-side value of the no-movement counter after the stuck-detection
update.  On detour fall-through the previous position has just been
overwritten with the current one, so the counter always increments there. -/
def new_stuck (s : NavState) (x y : Int) : Nat :=
  if s.detour_ticks = 0 then
    (if x = s.prev_x ∧ y = s.prev_y then s.stuck_count + 1 else 0)
  else s.stuck_count + 1

/-- Claim-side give-up condition: the call reaches the tail with the
updated no-movement counter below 3 (so no detour fires) while the
cumulative stuck counter has reached 15. -/
def gives_up (s : NavState) (x y : Int) : Prop :=
  reaches_tail s x y ∧ new_stuck s x y < 3 ∧ 15 ≤ s.total_stuck

/-- Outcome of the shared tail of `get_next_direction`: it yields `none`
exactly when the updated no-movement counter stays below 3 (no detour
fires) and the cumulative stuck counter has reached 15. -/
theorem nav_tail_none_iff (s : NavState) (x y dx dy : Int) :
    ((nav_tail s x y dx dy).1 = none ↔
      (if x = s.prev_x ∧ y = s.prev_y then s.stuck_count + 1 else 0) < 3 ∧
        15 ≤ s.total_stuck) := by
  by_cases hsame : x = s.prev_x ∧ y = s.prev_y
  · rw [if_pos hsame]
    by_cases hstuck : 3 ≤ s.stuck_count + 1
    · refine iff_of_false ?_ fun h => absurd h.1 (by omega)
      simp [nav_tail, start_detour, hsame, hstuck]
    · by_cases hgu : 15 ≤ s.total_stuck
      · refine iff_of_true ?_ ⟨by omega, hgu⟩
        simp [nav_tail, hsame, hstuck, hgu]
      · refine iff_of_false ?_ fun h => hgu h.2
        simp only [nav_tail, hsame, and_self, reduceIte]
        rw [if_neg (by simpa using hstuck), if_neg (by simpa using hgu)]
        split
        · simp
        · split <;> simp
  · rw [if_neg hsame]
    by_cases hgu : 15 ≤ s.total_stuck
    · refine iff_of_true ?_ ⟨by omega, hgu⟩
      simp [nav_tail, hsame, hgu]
    · refine iff_of_false ?_ fun h => hgu h.2
      simp only [nav_tail, hsame, reduceIte]
      rw [if_neg (by simp), if_neg (by simpa using hgu)]
      split
      · simp
      · split <;> simp

/-- C2 (amended): `get_next_direction` returns `none` iff navigation is
inactive (or no target is set), or the queried map differs from the
target's map, or the Chebyshev distance to the target is at most 1 on the
correct map, or the 15-stuck give-up fires.  The hypothesis is the
invariant that a running detour has a direction (true of every reachable
state: `_detour_dir` is assigned whenever `_detour_ticks` is made
positive). -/
theorem get_next_direction_none_iff (s : NavState) (x y m : Int)
    (hWF : 0 < s.detour_ticks → s.detour_dir.isSome = true) :
    (get_next_direction s x y m).1 = none ↔
      (s.active = false ∨ s.target = none) ∨
      (∃ t, s.target = some t ∧ s.active = true ∧ m ≠ s.target_map) ∨
      (∃ tx ty, s.target = some (tx, ty) ∧ s.active = true ∧ m = s.target_map ∧
        max (tx - x).natAbs (ty - y).natAbs ≤ 1) ∨
      (∃ tx ty, s.target = some (tx, ty) ∧ s.active = true ∧ m = s.target_map ∧
        1 < max (tx - x).natAbs (ty - y).natAbs ∧ gives_up s x y) := by
  rcases htar : s.target with _ | ⟨tx, ty⟩
  · refine iff_of_true ?_ (Or.inl (Or.inr rfl))
    simp [get_next_direction, htar]
  · by_cases hact : s.active = false
    · refine iff_of_true ?_ (Or.inl (Or.inl hact))
      simp [get_next_direction, htar, hact]
    · have hact' : s.active = true := by
        cases h : s.active
        · exact absurd h hact
        · rfl
      by_cases hmap : m = s.target_map
      case neg =>
        refine iff_of_true ?_ (Or.inr (Or.inl ⟨(tx, ty), rfl, hact', hmap⟩))
        simp [get_next_direction, htar, hact', hmap]
      case pos =>
        by_cases harr : (tx - x).natAbs ≤ 1 ∧ (ty - y).natAbs ≤ 1
        · refine iff_of_true ?_
            (Or.inr (Or.inr (Or.inl ⟨tx, ty, rfl, hact', hmap, max_le harr.1 harr.2⟩)))
          simp [get_next_direction, htar, hact', hmap, harr]
        · have hfar : 1 < max (tx - x).natAbs (ty - y).natAbs := by
            rcases Nat.lt_or_ge 1 ((tx - x).natAbs) with h | h
            · exact lt_max_of_lt_left h
            · rcases Nat.lt_or_ge 1 ((ty - y).natAbs) with h' | h'
              · exact lt_max_of_lt_right h'
              · exact absurd ⟨h, h'⟩ harr
          have hno3 : ∀ a b : Int, some (tx, ty) = some (a, b) →
              max (a - x).natAbs (b - y).natAbs ≤ 1 → False := by
            intro a b hab hle
            injection hab with h
            cases h
            exact absurd (lt_of_lt_of_le hfar hle) (lt_irrefl 1)
          by_cases hdet : 0 < s.detour_ticks
          · by_cases hsame : x = s.prev_x ∧ y = s.prev_y
            · -- blocked detour: immediate re-detour, returns a direction
              obtain ⟨hx, hy⟩ := hsame
              subst hx
              subst hy
              have hres : (get_next_direction s s.prev_x s.prev_y m).1 ≠ none := by
                simp [get_next_direction, start_detour, htar, hact', hmap, harr,
                  hdet]
              refine iff_of_false hres ?_
              rintro ((h | h) | ⟨t, ht, _, hm⟩ | ⟨a, b, hab, _, _, hle⟩ |
                ⟨a, b, hab, _, _, _, h0 | ⟨hne, _⟩, _, _⟩)
              · rw [hact'] at h; exact Bool.noConfusion h
              · exact Option.noConfusion h
              · exact hm hmap
              · exact hno3 a b hab hle
              · omega
              · exact hne ⟨rfl, rfl⟩
            · by_cases hlast : s.detour_ticks = 1
              · -- fall-through: the tail runs with prev already overwritten
                have hres : (get_next_direction s x y m).1 =
                    (nav_tail { s with detour_ticks := s.detour_ticks - 1, prev_x := x, prev_y := y } x y (tx - x) (ty - y)).1 := by
                  simp [get_next_direction, htar, hact', hmap, harr, hdet, hsame,
                    hlast]
                rw [hres, nav_tail_none_iff, if_pos ⟨rfl, rfl⟩]
                constructor
                · rintro ⟨h1, h2⟩
                  refine Or.inr (Or.inr (Or.inr ⟨tx, ty, rfl, hact', hmap, hfar,
                    Or.inr ⟨hsame, hlast⟩, ?_, h2⟩))
                  rw [new_stuck, if_neg (by omega)]
                  exact h1
                · rintro ((h | h) | ⟨t, ht, _, hm⟩ | ⟨a, b, hab, _, _, hle⟩ |
                    ⟨a, b, hab, _, _, _, _, hns, hgu⟩)
                  · rw [hact'] at h; exact Bool.noConfusion h
                  · exact Option.noConfusion h
                  · exact absurd hmap hm
                  · exact absurd (hno3 a b hab hle) (fun h => h)
                  · rw [new_stuck, if_neg (by omega)] at hns
                    exact ⟨hns, hgu⟩
              · -- detour keeps running: returns the stored detour direction
                have h2 : 0 < s.detour_ticks - 1 := by omega
                rcases Option.isSome_iff_exists.mp (hWF hdet) with ⟨d, hd⟩
                have hres : (get_next_direction s x y m).1 ≠ none := by
                  simp [get_next_direction, htar, hact', hmap, harr, hdet, hsame,
                    h2, hd]
                refine iff_of_false hres ?_
                rintro ((h | h) | ⟨t, ht, _, hm⟩ | ⟨a, b, hab, _, _, hle⟩ |
                  ⟨a, b, hab, _, _, _, h0 | ⟨_, hone⟩, _, _⟩)
                · rw [hact'] at h; exact Bool.noConfusion h
                · exact Option.noConfusion h
                · exact hm hmap
                · exact hno3 a b hab hle
                · omega
                · exact hlast hone
          · -- no detour in progress: the plain tail decides
            have hdz : s.detour_ticks = 0 := by omega
            have hres : (get_next_direction s x y m).1 =
                (nav_tail s x y (tx - x) (ty - y)).1 := by
              simp [get_next_direction, htar, hact', hmap, harr, hdet]
            rw [hres, nav_tail_none_iff]
            constructor
            · rintro ⟨h1, h2⟩
              refine Or.inr (Or.inr (Or.inr ⟨tx, ty, rfl, hact', hmap, hfar,
                Or.inl hdz, ?_, h2⟩))
              rw [new_stuck, if_pos hdz]
              exact h1
            · rintro ((h | h) | ⟨t, ht, _, hm⟩ | ⟨a, b, hab, _, _, hle⟩ |
                ⟨a, b, hab, _, _, _, _, hns, hgu⟩)
              · rw [hact'] at h; exact Bool.noConfusion h
              · exact Option.noConfusion h
              · exact absurd hmap hm
              · exact absurd (hno3 a b hab hle) (fun h => h)
              · rw [new_stuck, if_pos hdz] at hns
                exact ⟨hns, hgu⟩

/-- Witness for the amended C2 theorem: the iff instantiated at the
concrete reachable state `nav_run0` (freshly set target, no detour), with
the detour invariant discharged by computation. -/
theorem get_next_direction_none_iff_witness :
    ((get_next_direction nav_run0 0 0 0).1 = none ↔
      (nav_run0.active = false ∨ nav_run0.target = none) ∨
      (∃ t, nav_run0.target = some t ∧ nav_run0.active = true ∧
        (0 : Int) ≠ nav_run0.target_map) ∨
      (∃ tx ty, nav_run0.target = some (tx, ty) ∧ nav_run0.active = true ∧
        (0 : Int) = nav_run0.target_map ∧
        max (tx - 0).natAbs (ty - 0).natAbs ≤ 1) ∨
      (∃ tx ty, nav_run0.target = some (tx, ty) ∧ nav_run0.active = true ∧
        (0 : Int) = nav_run0.target_map ∧
        1 < max (tx - 0).natAbs (ty - 0).natAbs ∧ gives_up nav_run0 0 0)) :=
  get_next_direction_none_iff nav_run0 0 0 0 (by decide)

/-- C6: every detour started by the navigator commits to exactly
`min(3 + 2 × total_stuck, 12)` ticks, never more than 12; at cumulative
stuck counts 0,1,2,3,4,5 the committed lengths are 3,5,7,9,11,12. -/
theorem start_detour_length (s : NavState) (dx dy : Int) :
    (start_detour s dx dy).2.detour_ticks = min (3 + 2 * s.total_stuck) 12 ∧
    (start_detour s dx dy).2.detour_ticks ≤ 12 ∧
    ([0, 1, 2, 3, 4, 5].map
        (fun c => (start_detour { s with total_stuck := c } dx dy).2.detour_ticks)) =
      [3, 5, 7, 9, 11, 12] := by
  refine ⟨?_, ?_, ?_⟩
  · simp [start_detour]
    omega
  · simp [start_detour]
  · simp [start_detour]

/-- C9: `set_target` fails (returns `false` with the state untouched) when
either registry lookup misses, and on success returns `true`, installs the
target coordinates/label/map, resets every stuck and detour counter and
activates navigation. -/
theorem set_target_spec (s : NavState) (map_id : Int) (key : String) :
    (lookup_landmark s map_id key = none → set_target s map_id key = (false, s)) ∧
    (∀ lm, lookup_landmark s map_id key = some lm →
      set_target s map_id key =
        (true,
          { s with
            target := some (lm.x, lm.y)
            target_label := lm.label.getD key
            target_map := map_id
            active := true
            stuck_count := 0
            prev_x := -1
            prev_y := -1
            stuck_dir_idx := 0
            detour_dir := none
            detour_ticks := 0
            total_stuck := 0 })) := by
  unfold lookup_landmark set_target
  rcases h1 : alookup s.warp_data (toString map_id) with _ | md
  · simp
  · rcases h2 : alookup md.landmarks key with _ | lm <;> simp [h2]

/-- Witness for C9: on the demo registry, a bad map id fails without a
state change and the good lookup installs the target. -/
theorem set_target_spec_witness :
    set_target nav_demo 1 "home" = (false, nav_demo) ∧
    set_target nav_demo 0 "home" =
      (true,
        { nav_demo with
          target := some (100, 0)
          target_label := "Home"
          target_map := 0
          active := true
          stuck_count := 0
          prev_x := -1
          prev_y := -1
          stuck_dir_idx := 0
          detour_dir := none
          detour_ticks := 0
          total_stuck := 0 }) := by
  constructor
  · exact (set_target_spec nav_demo 1 "home").1 (by decide)
  · exact (set_target_spec nav_demo 0 "home").2
      { x := 100, y := 0, label := some "Home" } (by decide)

/-! ## BattleManager (src/agent/core/battle_manager.py) -/

/-- One party member as read from the world snapshot, with the defaults the
source's `dict.get` calls supply. -/
structure Pokemon where
  hp_current : Nat := 0
  hp_max : Nat := 0
  species_name : String := "Unknown"
  moves : List String := []
deriving DecidableEq, Repr

/-- The world-snapshot fields `BattleManager.update` consumes:
battle-kind code (0 = none, 1 = wild, 2 = trainer), party list, money. -/
structure GameState where
  in_battle : Nat
  party : List Pokemon
  money : Nat
deriving DecidableEq, Repr

/-- The mutable fields of the Python `BattleManager`, plus the loaded type
chart (`self.type_chart`). -/
structure BattleState where
  in_battle : Bool
  battle_type : Nat
  battle_turns : Nat
  battles_won : Nat
  battles_fled : Nat
  whiteouts : Nat
  prev_money : Nat
  prev_party_hp : List (Nat × Nat)
  type_chart : List (String × List (String × Rat))
deriving DecidableEq, Repr

/-- `BattleManager.__init__` over a given (possibly empty) type chart. -/
def BattleManager.init (chart : List (String × List (String × Rat))) :
    BattleState :=
  { in_battle := false
    battle_type := 0
    battle_turns := 0
    battles_won := 0
    battles_fled := 0
    whiteouts := 0
    prev_money := 0
    prev_party_hp := []
    type_chart := chart }

/-- `SPECIES_TYPES`: the species → type(s) registry from the source. -/
def SPECIES_TYPES : List (String × List String) := [
  ("Bulbasaur", ["Grass", "Poison"]),
  ("Ivysaur", ["Grass", "Poison"]),
  ("Venusaur", ["Grass", "Poison"]),
  ("Charmander", ["Fire"]),
  ("Charmeleon", ["Fire"]),
  ("Charizard", ["Fire", "Flying"]),
  ("Squirtle", ["Water"]),
  ("Wartortle", ["Water"]),
  ("Blastoise", ["Water"]),
  ("Caterpie", ["Bug"]),
  ("Metapod", ["Bug"]),
  ("Butterfree", ["Bug", "Flying"]),
  ("Weedle", ["Bug", "Poison"]),
  ("Kakuna", ["Bug", "Poison"]),
  ("Beedrill", ["Bug", "Poison"]),
  ("Pidgey", ["Normal", "Flying"]),
  ("Pidgeotto", ["Normal", "Flying"]),
  ("Pidgeot", ["Normal", "Flying"]),
  ("Rattata", ["Normal"]),
  ("Raticate", ["Normal"]),
  ("Spearow", ["Normal", "Flying"]),
  ("Fearow", ["Normal", "Flying"]),
  ("Ekans", ["Poison"]),
  ("Arbok", ["Poison"]),
  ("Pikachu", ["Electric"]),
  ("Raichu", ["Electric"]),
  ("Sandshrew", ["Ground"]),
  ("Sandslash", ["Ground"]),
  ("Nidoran-F", ["Poison"]),
  ("Nidorina", ["Poison"]),
  ("Nidoqueen", ["Poison", "Ground"]),
  ("Nidoran-M", ["Poison"]),
  ("Nidorino", ["Poison"]),
  ("Nidoking", ["Poison", "Ground"]),
  ("Clefairy", ["Normal"]),
  ("Clefable", ["Normal"]),
  ("Vulpix", ["Fire"]),
  ("Ninetales", ["Fire"]),
  ("Jigglypuff", ["Normal"]),
  ("Wigglytuff", ["Normal"]),
  ("Zubat", ["Poison", "Flying"]),
  ("Golbat", ["Poison", "Flying"]),
  ("Oddish", ["Grass", "Poison"]),
  ("Gloom", ["Grass", "Poison"]),
  ("Vileplume", ["Grass", "Poison"]),
  ("Paras", ["Bug", "Grass"]),
  ("Parasect", ["Bug", "Grass"]),
  ("Venonat", ["Bug", "Poison"]),
  ("Venomoth", ["Bug", "Poison"]),
  ("Diglett", ["Ground"]),
  ("Dugtrio", ["Ground"]),
  ("Meowth", ["Normal"]),
  ("Persian", ["Normal"]),
  ("Psyduck", ["Water"]),
  ("Golduck", ["Water"]),
  ("Mankey", ["Fighting"]),
  ("Primeape", ["Fighting"]),
  ("Growlithe", ["Fire"]),
  ("Arcanine", ["Fire"]),
  ("Poliwag", ["Water"]),
  ("Poliwhirl", ["Water"]),
  ("Poliwrath", ["Water", "Fighting"]),
  ("Abra", ["Psychic"]),
  ("Kadabra", ["Psychic"]),
  ("Alakazam", ["Psychic"]),
  ("Machop", ["Fighting"]),
  ("Machoke", ["Fighting"]),
  ("Machamp", ["Fighting"]),
  ("Bellsprout", ["Grass", "Poison"]),
  ("Weepinbell", ["Grass", "Poison"]),
  ("Victreebel", ["Grass", "Poison"]),
  ("Tentacool", ["Water", "Poison"]),
  ("Tentacruel", ["Water", "Poison"]),
  ("Geodude", ["Rock", "Ground"]),
  ("Graveler", ["Rock", "Ground"]),
  ("Golem", ["Rock", "Ground"]),
  ("Ponyta", ["Fire"]),
  ("Rapidash", ["Fire"]),
  ("Slowpoke", ["Water", "Psychic"]),
  ("Slowbro", ["Water", "Psychic"]),
  ("Magnemite", ["Electric", "Steel"]),
  ("Magneton", ["Electric", "Steel"]),
  ("Farfetch\x27d", ["Normal", "Flying"]),
  ("Doduo", ["Normal", "Flying"]),
  ("Dodrio", ["Normal", "Flying"]),
  ("Seel", ["Water"]),
  ("Dewgong", ["Water", "Ice"]),
  ("Grimer", ["Poison"]),
  ("Muk", ["Poison"]),
  ("Shellder", ["Water"]),
  ("Cloyster", ["Water", "Ice"]),
  ("Gastly", ["Ghost", "Poison"]),
  ("Haunter", ["Ghost", "Poison"]),
  ("Gengar", ["Ghost", "Poison"]),
  ("Onix", ["Rock", "Ground"]),
  ("Drowzee", ["Psychic"]),
  ("Hypno", ["Psychic"]),
  ("Krabby", ["Water"]),
  ("Kingler", ["Water"]),
  ("Voltorb", ["Electric"]),
  ("Electrode", ["Electric"]),
  ("Exeggcute", ["Grass", "Psychic"]),
  ("Exeggutor", ["Grass", "Psychic"]),
  ("Cubone", ["Ground"]),
  ("Marowak", ["Ground"]),
  ("Hitmonlee", ["Fighting"]),
  ("Hitmonchan", ["Fighting"]),
  ("Lickitung", ["Normal"]),
  ("Koffing", ["Poison"]),
  ("Weezing", ["Poison"]),
  ("Rhyhorn", ["Ground", "Rock"]),
  ("Rhydon", ["Ground", "Rock"]),
  ("Chansey", ["Normal"]),
  ("Tangela", ["Grass"]),
  ("Kangaskhan", ["Normal"]),
  ("Horsea", ["Water"]),
  ("Seadra", ["Water"]),
  ("Goldeen", ["Water"]),
  ("Seaking", ["Water"]),
  ("Staryu", ["Water"]),
  ("Starmie", ["Water", "Psychic"]),
  ("Mr. Mime", ["Psychic"]),
  ("Scyther", ["Bug", "Flying"]),
  ("Jynx", ["Ice", "Psychic"]),
  ("Electabuzz", ["Electric"]),
  ("Magmar", ["Fire"]),
  ("Pinsir", ["Bug"]),
  ("Tauros", ["Normal"]),
  ("Magikarp", ["Water"]),
  ("Gyarados", ["Water", "Flying"]),
  ("Lapras", ["Water", "Ice"]),
  ("Ditto", ["Normal"]),
  ("Eevee", ["Normal"]),
  ("Vaporeon", ["Water"]),
  ("Jolteon", ["Electric"]),
  ("Flareon", ["Fire"]),
  ("Porygon", ["Normal"]),
  ("Omanyte", ["Rock", "Water"]),
  ("Omastar", ["Rock", "Water"]),
  ("Kabuto", ["Rock", "Water"]),
  ("Kabutops", ["Rock", "Water"]),
  ("Aerodactyl", ["Rock", "Flying"]),
  ("Snorlax", ["Normal"]),
  ("Articuno", ["Ice", "Flying"]),
  ("Zapdos", ["Electric", "Flying"]),
  ("Moltres", ["Fire", "Flying"]),
  ("Dratini", ["Dragon"]),
  ("Dragonair", ["Dragon"]),
  ("Dragonite", ["Dragon", "Flying"]),
  ("Mewtwo", ["Psychic"]),
  ("Mew", ["Psychic"])]


/-- `MOVE_TYPES`: the move → type registry from the source. -/
def MOVE_TYPES : List (String × String) := [
  ("Tackle", "Normal"),
  ("Scratch", "Normal"),
  ("Pound", "Normal"),
  ("Slam", "Normal"),
  ("Body Slam", "Normal"),
  ("Take Down", "Normal"),
  ("Double-Edge", "Normal"),
  ("Hyper Beam", "Normal"),
  ("Quick Attack", "Normal"),
  ("Slash", "Normal"),
  ("Headbutt", "Normal"),
  ("Strength", "Normal"),
  ("Cut", "Normal"),
  ("Swift", "Normal"),
  ("Ember", "Fire"),
  ("Flamethrower", "Fire"),
  ("Fire Blast", "Fire"),
  ("Fire Punch", "Fire"),
  ("Fire Spin", "Fire"),
  ("Flame Wheel", "Fire"),
  ("Water Gun", "Water"),
  ("Surf", "Water"),
  ("Hydro Pump", "Water"),
  ("Bubble", "Water"),
  ("Bubble Beam", "Water"),
  ("Waterfall", "Water"),
  ("Water Pulse", "Water"),
  ("Thunder Shock", "Electric"),
  ("Thunderbolt", "Electric"),
  ("Thunder", "Electric"),
  ("Thunder Punch", "Electric"),
  ("Thunder Wave", "Electric"),
  ("Spark", "Electric"),
  ("Vine Whip", "Grass"),
  ("Razor Leaf", "Grass"),
  ("Solar Beam", "Grass"),
  ("Mega Drain", "Grass"),
  ("Giga Drain", "Grass"),
  ("Absorb", "Grass"),
  ("Leech Seed", "Grass"),
  ("Bullet Seed", "Grass"),
  ("Leaf Blade", "Grass"),
  ("Ice Beam", "Ice"),
  ("Blizzard", "Ice"),
  ("Ice Punch", "Ice"),
  ("Aurora Beam", "Ice"),
  ("Powder Snow", "Ice"),
  ("Icy Wind", "Ice"),
  ("Karate Chop", "Fighting"),
  ("Low Kick", "Fighting"),
  ("Submission", "Fighting"),
  ("Seismic Toss", "Fighting"),
  ("Cross Chop", "Fighting"),
  ("Brick Break", "Fighting"),
  ("Mach Punch", "Fighting"),
  ("Dynamic Punch", "Fighting"),
  ("Poison Sting", "Poison"),
  ("Sludge", "Poison"),
  ("Sludge Bomb", "Poison"),
  ("Toxic", "Poison"),
  ("Acid", "Poison"),
  ("Poison Powder", "Poison"),
  ("Earthquake", "Ground"),
  ("Dig", "Ground"),
  ("Mud-Slap", "Ground"),
  ("Bone Club", "Ground"),
  ("Bonemerang", "Ground"),
  ("Mud Shot", "Ground"),
  ("Gust", "Flying"),
  ("Wing Attack", "Flying"),
  ("Fly", "Flying"),
  ("Drill Peck", "Flying"),
  ("Peck", "Flying"),
  ("Aerial Ace", "Flying"),
  ("Sky Attack", "Flying"),
  ("Confusion", "Psychic"),
  ("Psychic", "Psychic"),
  ("Psybeam", "Psychic"),
  ("Hypnosis", "Psychic"),
  ("Dream Eater", "Psychic"),
  ("Extrasensory", "Psychic"),
  ("Leech Life", "Bug"),
  ("Pin Missile", "Bug"),
  ("Twineedle", "Bug"),
  ("Signal Beam", "Bug"),
  ("Silver Wind", "Bug"),
  ("Rock Throw", "Rock"),
  ("Rock Slide", "Rock"),
  ("Rock Tomb", "Rock"),
  ("Ancient Power", "Rock"),
  ("Rock Blast", "Rock"),
  ("Lick", "Ghost"),
  ("Shadow Ball", "Ghost"),
  ("Night Shade", "Ghost"),
  ("Shadow Punch", "Ghost"),
  ("Astonish", "Ghost"),
  ("Dragon Rage", "Dragon"),
  ("Dragon Breath", "Dragon"),
  ("Dragon Claw", "Dragon"),
  ("Outrage", "Dragon"),
  ("Twister", "Dragon"),
  ("Bite", "Dark"),
  ("Crunch", "Dark"),
  ("Pursuit", "Dark"),
  ("Thief", "Dark"),
  ("Faint Attack", "Dark"),
  ("Steel Wing", "Steel"),
  ("Iron Tail", "Steel"),
  ("Metal Claw", "Steel"),
  ("Meteor Mash", "Steel"),
  ("Iron Defense", "Steel")]

/-- `BattleManager.update`: detect battle transitions from the snapshot,
reset the turn counter and record the HP/money baseline on battle start,
classify the outcome on battle end, and count turns in battle.  The
returned event models the `events` dict (at most one key is ever set). -/
def update (s : BattleState) (gs : GameState) :
    Option (String × String) × BattleState :=
  if s.in_battle = false ∧ 0 < gs.in_battle then
    (some ("battle_start", if gs.in_battle = 1 then "wild" else "trainer"),
      { s with
        in_battle := true
        battle_type := gs.in_battle
        battle_turns := 0
        prev_party_hp := gs.party.map fun p => (p.hp_current, p.hp_max)
        prev_money := gs.money })
  else if s.in_battle = true ∧ gs.in_battle = 0 then
    let all_fainted :=
      if gs.party.isEmpty then false
      else gs.party.all fun p => p.hp_current == 0
    if all_fainted = true ∨ gs.money < s.prev_money then
      (some ("battle_end", "whiteout"),
        { s with in_battle := false, whiteouts := s.whiteouts + 1, battle_type := 0 })
    else
      (some ("battle_end", "won"),
        { s with in_battle := false, battles_won := s.battles_won + 1, battle_type := 0 })
  else if s.in_battle = true then
    (none, { s with battle_turns := s.battle_turns + 1 })
  else (none, s)

/-- `BattleManager.get_type_effectiveness`: neutral 1.0 on a missing table
or falsy attack type, otherwise the running product over the defending
types found in the attack type's row. -/
def get_type_effectiveness (s : BattleState) (attack_type : String)
    (defend_types : List String) : Rat :=
  if s.type_chart = [] ∨ attack_type = "" then 1
  else
    let matchups := (alookup s.type_chart attack_type).getD []
    defend_types.foldl
      (fun multiplier dtype =>
        match alookup matchups dtype with
        | some f => multiplier * f
        | none => multiplier) 1

/-- The enemy types `recommend_move` starts from. -/
def enemy_types_of (enemy_name : String) : List String :=
  (alookup SPECIES_TYPES enemy_name).getD []

/-- The loop body of `recommend_move`: skip empty and "---" slots and
moves missing from the registry, otherwise keep the move if its
effectiveness strictly beats the best seen so far. -/
def rec_step (s : BattleState) (ets : List String)
    (acc : Option String × Rat) (move_name : String) : Option String × Rat :=
  if move_name = "" ∨ move_name = "---" then acc
  else
    match alookup MOVE_TYPES move_name with
    | none => acc
    | some move_type =>
      let effectiveness := get_type_effectiveness s move_type ets
      if acc.2 < effectiveness then (some move_name, effectiveness) else acc

/-- `BattleManager.recommend_move`: best-effectiveness move against the
enemy's types; a suggestion (move name and multiplier, the payload of the
formatted string) only when the best strictly exceeds 1.0.  -/
def recommend_move (s : BattleState) (party_pokemon : Pokemon)
    (enemy_name : String) : Option (String × Rat) :=
  let enemy_types := enemy_types_of enemy_name
  if enemy_types = [] then none
  else
    match party_pokemon.moves.foldl (rec_step s enemy_types) (none, 0) with
    | (some best_move, best_effectiveness) =>
      if 1 < best_effectiveness then some (best_move, best_effectiveness)
      else none
    | (none, _) => none

/-- Concrete battle tracker for the C5 counterexample: a battle starts with
an empty party snapshot and money 5. -/
def bm0 : BattleState := BattleManager.init []

/-- Snapshot opening a wild battle with an empty party. -/
def gs_start : GameState := { in_battle := 1, party := [], money := 5 }

/-- Snapshot closing the battle, party still empty, money unchanged. -/
def gs_end : GameState := { in_battle := 0, party := [], money := 5 }

/-- Tracker state after observing the battle start. -/
def bm1 : BattleState := (update bm0 gs_start).2

/-- C5 counterexample: on this battle→none transition every party member's
current HP is zero (vacuously — the party is empty) and money did not
drop below the baseline, so the claim classifies the outcome as a
whiteout; the code's empty-party guard classifies it as won instead. -/
theorem update_empty_party_cex :
    bm1.in_battle = true ∧ gs_end.in_battle = 0 ∧
    (∀ p ∈ gs_end.party, p.hp_current = 0) ∧
    ¬ gs_end.money < bm1.prev_money ∧
    (update bm1 gs_end).2.whiteouts = bm1.whiteouts ∧
    (update bm1 gs_end).2.battles_won = bm1.battles_won + 1 := by
  decide

/-- C5 (amended): on a battle→none transition exactly one of the won and
whiteout counters is incremented — whiteout when the party is non-empty
with every member at 0 HP or when money dropped below the pre-battle
baseline, won otherwise — and on a none→battle transition the turn counter
is reset to zero. -/
theorem update_outcome_spec (s : BattleState) (gs : GameState) :
    (s.in_battle = true → gs.in_battle = 0 →
      ((((gs.party ≠ [] ∧ ∀ p ∈ gs.party, p.hp_current = 0) ∨
          gs.money < s.prev_money) →
        (update s gs).2.whiteouts = s.whiteouts + 1 ∧
        (update s gs).2.battles_won = s.battles_won) ∧
      ((¬((gs.party ≠ [] ∧ ∀ p ∈ gs.party, p.hp_current = 0) ∨
          gs.money < s.prev_money)) →
        (update s gs).2.battles_won = s.battles_won + 1 ∧
        (update s gs).2.whiteouts = s.whiteouts))) ∧
    (s.in_battle = false → 0 < gs.in_battle →
      (update s gs).2.battle_turns = 0) := by
  constructor
  · intro hin hnew
    have h1 : ¬(s.in_battle = false ∧ 0 < gs.in_battle) := by simp [hin]
    have h2 : s.in_battle = true ∧ gs.in_battle = 0 := ⟨hin, hnew⟩
    have hfaint : ((if gs.party.isEmpty then false
        else gs.party.all fun p => p.hp_current == 0) = true) ↔
        (gs.party ≠ [] ∧ ∀ p ∈ gs.party, p.hp_current = 0) := by
      rcases gs.party with _ | ⟨p, rest⟩
      · simp
      · simp [List.all_eq_true]
    constructor
    · intro hcond
      have hcnd : (if gs.party.isEmpty then false
          else gs.party.all fun p => p.hp_current == 0) = true ∨
          gs.money < s.prev_money := by
        rcases hcond with h | h
        · exact Or.inl (hfaint.mpr h)
        · exact Or.inr h
      simp only [update, if_neg h1, if_pos h2, if_pos hcnd]
      exact ⟨trivial, trivial⟩
    · intro hcond
      have hcnd : ¬((if gs.party.isEmpty then false
          else gs.party.all fun p => p.hp_current == 0) = true ∨
          gs.money < s.prev_money) := by
        rintro (h | h)
        · exact hcond (Or.inl (hfaint.mp h))
        · exact hcond (Or.inr h)
      simp only [update, if_neg h1, if_pos h2, if_neg hcnd]
      exact ⟨trivial, trivial⟩
  · intro hout hpos
    rw [update, if_pos (show s.in_battle = false ∧ 0 < gs.in_battle from ⟨hout, hpos⟩)]

/-- Snapshot ending a battle with the sole party member fainted. -/
def gs_faint : GameState :=
  { in_battle := 0, party := [{ hp_current := 0, hp_max := 20 }], money := 5 }

/-- Witness for the amended C5 theorem: a genuine whiteout (one party
member at 0 HP) increments only the whiteout counter, and the preceding
battle start reset the turn counter. -/
theorem update_outcome_spec_witness :
    ((update bm1 gs_faint).2.whiteouts = bm1.whiteouts + 1 ∧
      (update bm1 gs_faint).2.battles_won = bm1.battles_won) ∧
    (update bm0 gs_start).2.battle_turns = 0 := by
  constructor
  · exact ((update_outcome_spec bm1 gs_faint).1
      (by decide) (by decide)).1 (Or.inl (by decide))
  · exact (update_outcome_spec bm0 gs_start).2 (by decide) (by decide)

/-- Multiplying through the matchup row: the fold in
`get_type_effectiveness` equals the product of the individual factors,
missing entries contributing a neutral 1. -/
theorem fold_matchups (ms : List (String × Rat)) (l : List String) :
    ∀ init : Rat,
      l.foldl (fun multiplier dtype =>
        match alookup ms dtype with
        | some f => multiplier * f
        | none => multiplier) init
      = init * (l.map fun d => (alookup ms d).getD 1).prod := by
  induction l with
  | nil => intro init; simp
  | cons d rest ih =>
    intro init
    rcases h : alookup ms d with _ | f
    · simp only [List.foldl_cons, h]
      rw [ih]
      simp [h]
    · simp only [List.foldl_cons, h]
      rw [ih]
      simp only [List.map_cons, List.prod_cons, h, Option.getD_some]
      ring

/-- The type chart of the claim's concrete example:
Water→Fire = 2, Water→Flying = 1. -/
def waterChart : List (String × List (String × Rat)) :=
  [("Water", [("Fire", 2), ("Flying", 1)])]

/-- C7: for a (non-empty) attack type, `get_type_effectiveness` returns
the product, starting from 1, of the table factor for each defending type
present in the attack type's row; defending types absent from the row, and
a missing/unloaded table, contribute neutral factors of 1.  In particular
Water against [Fire, Flying] with Water→Fire = 2 and Water→Flying = 1
yields 2. -/
theorem get_type_effectiveness_prod (s : BattleState) (attack_type : String)
    (defend_types : List String) (hatk : attack_type ≠ "") :
    (get_type_effectiveness s attack_type defend_types =
      (defend_types.map fun dtype =>
        if s.type_chart = [] then 1
        else (alookup ((alookup s.type_chart attack_type).getD []) dtype).getD 1).prod) ∧
    get_type_effectiveness (BattleManager.init waterChart) "Water"
      ["Fire", "Flying"] = 2 := by
  constructor
  · by_cases hchart : s.type_chart = []
    · rw [get_type_effectiveness, if_pos (Or.inl hchart)]
      simp [hchart]
    · rw [get_type_effectiveness, if_neg (by simp [hchart, hatk])]
      rw [fold_matchups]
      simp [hchart]
  · norm_num [get_type_effectiveness, alookup, BattleManager.init, waterChart]
    rw [if_neg (by decide), if_neg (by decide)]
    norm_num

/-- Witness for C7: the theorem instantiated on the example chart. -/
theorem get_type_effectiveness_prod_witness :
    ((get_type_effectiveness (BattleManager.init waterChart) "Water" ["Fire", "Flying"] =
      ((["Fire", "Flying"] : List String).map fun dtype =>
        if (BattleManager.init waterChart).type_chart = [] then 1
        else (alookup ((alookup (BattleManager.init waterChart).type_chart "Water").getD [])
          dtype).getD 1).prod) ∧
    get_type_effectiveness (BattleManager.init waterChart) "Water"
      ["Fire", "Flying"] = 2) :=
  get_type_effectiveness_prod (BattleManager.init waterChart) "Water"
    ["Fire", "Flying"] (by decide)

/-- The move slots `recommend_move` actually scores: non-empty, not the
"---" placeholder, and present in the move-type registry. -/
def scored_moves (moves : List String) : List String :=
  moves.filter fun mv => !(mv == "" || mv == "---") && (alookup MOVE_TYPES mv).isSome

/-- The effectiveness `recommend_move` computes for a scored move. -/
def move_eff (s : BattleState) (ets : List String) (mv : String) : Rat :=
  get_type_effectiveness s ((alookup MOVE_TYPES mv).getD "") ets

/-- With no defending types every move scores a neutral 1. -/
theorem move_eff_nil (s : BattleState) (m : String) : move_eff s [] m = 1 := by
  rw [move_eff, get_type_effectiveness]
  split
  · rfl
  · rfl

/-- Invariant of the accumulator loop of `recommend_move` over the already
processed prefix of the move list: either nothing has beaten the initial
(None, 0) accumulator — every scored move so far has effectiveness ≤ 0 —
or the accumulator holds the first scored move attaining the strict
maximum so far. -/
def FoldInv (s : BattleState) (ets : List String) (pre : List String)
    (acc : Option String × Rat) : Prop :=
  (acc = (none, 0) ∧ ∀ m ∈ scored_moves pre, move_eff s ets m ≤ 0) ∨
  (∃ mv l1 l2, acc = (some mv, move_eff s ets mv) ∧
    scored_moves pre = l1 ++ mv :: l2 ∧ 0 < move_eff s ets mv ∧
    (∀ m ∈ l1, move_eff s ets m < move_eff s ets mv) ∧
    (∀ m ∈ scored_moves pre, move_eff s ets m ≤ move_eff s ets mv))

/-- The invariant only depends on the processed prefix through its scored
moves. -/
theorem FoldInv_eq_of_scored (s : BattleState) (ets : List String)
    {pre pre' : List String} {acc : Option String × Rat}
    (hs : scored_moves pre' = scored_moves pre) :
    FoldInv s ets pre acc → FoldInv s ets pre' acc := by
  intro h
  rcases h with ⟨hacc, hall⟩ | ⟨mv, l1, l2, hacc, hdec, hpos, hlt, hle⟩
  · refine Or.inl ⟨hacc, ?_⟩
    intro m hm
    rw [hs] at hm
    exact hall m hm
  · refine Or.inr ⟨mv, l1, l2, hacc, hs.trans hdec, hpos, hlt, ?_⟩
    intro m hm
    rw [hs] at hm
    exact hle m hm

/-- One loop step preserves the accumulator invariant. -/
theorem rec_step_inv (s : BattleState) (ets : List String) (pre : List String)
    (acc : Option String × Rat) (mv : String)
    (h : FoldInv s ets pre acc) :
    FoldInv s ets (pre ++ [mv]) (rec_step s ets acc mv) := by
  have hsc : scored_moves (pre ++ [mv]) = scored_moves pre ++ scored_moves [mv] := by
    simp [scored_moves]
  by_cases hskip : mv = "" ∨ mv = "---"
  · have hnil : scored_moves [mv] = [] := by
      rcases hskip with h' | h' <;> simp [scored_moves, h']
    rw [rec_step, if_pos hskip]
    exact FoldInv_eq_of_scored s ets (by rw [hsc, hnil, List.append_nil]) h
  · rcases not_or.mp hskip with ⟨hne1, hne2⟩
    rcases hty : alookup MOVE_TYPES mv with _ | t
    · have hnil : scored_moves [mv] = [] := by
        simp [scored_moves, hty]
      have hstep : rec_step s ets acc mv = acc := by
        simp only [rec_step, if_neg hskip, hty]
      rw [hstep]
      exact FoldInv_eq_of_scored s ets (by rw [hsc, hnil, List.append_nil]) h
    · have hmv_eff : move_eff s ets mv = get_type_effectiveness s t ets := by
        rw [move_eff, hty]
        rfl
      have hone : scored_moves [mv] = [mv] := by
        simp [scored_moves, hty, hne1, hne2]
      have hs' : scored_moves (pre ++ [mv]) = scored_moves pre ++ [mv] := by
        rw [hsc, hone]
      by_cases hbeat : acc.2 < get_type_effectiveness s t ets
      · have hstep : rec_step s ets acc mv =
            (some mv, get_type_effectiveness s t ets) := by
          simp only [rec_step, if_neg hskip, hty, if_pos hbeat]
        rw [hstep]
        rcases h with ⟨hacc, hall⟩ | ⟨mv0, l1, l2, hacc, hdec, hpos, hlt, hle⟩
        · have h0 : (0 : Rat) < get_type_effectiveness s t ets := by
            rw [hacc] at hbeat
            exact hbeat
          refine Or.inr ⟨mv, scored_moves pre, [], by rw [hmv_eff],
            by rw [hs'], ?_, ?_, ?_⟩
          · rw [hmv_eff]
            exact h0
          · intro m hm
            rw [hmv_eff]
            exact lt_of_le_of_lt (hall m hm) h0
          · intro m hm
            rw [hmv_eff]
            rw [hs'] at hm
            rcases List.mem_append.mp hm with hm' | hm'
            · exact le_of_lt (lt_of_le_of_lt (hall m hm') h0)
            · rcases List.mem_singleton.mp hm' with rfl
              rw [hmv_eff]
        · have hacc2 : acc.2 = move_eff s ets mv0 := by rw [hacc]
          rw [hacc2] at hbeat
          refine Or.inr ⟨mv, l1 ++ mv0 :: l2, [], by rw [hmv_eff],
            by rw [hs', hdec], ?_, ?_, ?_⟩
          · rw [hmv_eff]
            exact lt_trans hpos hbeat
          · intro m hm
            rw [hmv_eff]
            rcases List.mem_append.mp hm with hm' | hm'
            · exact lt_trans (hlt m hm') hbeat
            · rcases List.mem_cons.mp hm' with rfl | hm2
              · exact hbeat
              · refine lt_of_le_of_lt (hle m ?_) hbeat
                rw [hdec]
                exact List.mem_append_right _ (List.mem_cons_of_mem _ hm2)
          · intro m hm
            rw [hmv_eff]
            rw [hs'] at hm
            rcases List.mem_append.mp hm with hm' | hm'
            · exact le_of_lt (lt_of_le_of_lt (hle m hm') hbeat)
            · rcases List.mem_singleton.mp hm' with rfl
              rw [hmv_eff]
      · have hstep : rec_step s ets acc mv = acc := by
          simp only [rec_step, if_neg hskip, hty, if_neg hbeat]
        rw [hstep]
        have heffle : get_type_effectiveness s t ets ≤ acc.2 := not_lt.mp hbeat
        rcases h with ⟨hacc, hall⟩ | ⟨mv0, l1, l2, hacc, hdec, hpos, hlt, hle⟩
        · refine Or.inl ⟨hacc, ?_⟩
          intro m hm
          rw [hs'] at hm
          rcases List.mem_append.mp hm with hm' | hm'
          · exact hall m hm'
          · rcases List.mem_singleton.mp hm' with rfl
            rw [hmv_eff]
            rw [hacc] at heffle
            exact heffle
        · have hacc2 : acc.2 = move_eff s ets mv0 := by rw [hacc]
          rw [hacc2] at heffle
          refine Or.inr ⟨mv0, l1, l2 ++ [mv], hacc, by rw [hs', hdec]; simp,
            hpos, hlt, ?_⟩
          intro m hm
          rw [hs'] at hm
          rcases List.mem_append.mp hm with hm' | hm'
          · exact hle m hm'
          · rcases List.mem_singleton.mp hm' with rfl
            rw [hmv_eff]
            exact heffle

/-- The whole loop preserves the accumulator invariant. -/
theorem rec_fold_inv (s : BattleState) (ets : List String) :
    ∀ (l pre : List String) (acc : Option String × Rat),
      FoldInv s ets pre acc →
      FoldInv s ets (pre ++ l) (l.foldl (rec_step s ets) acc) := by
  intro l
  induction l with
  | nil =>
    intro pre acc h
    simpa using h
  | cons mv rest ih =>
    intro pre acc h
    have h1 := rec_step_inv s ets pre acc mv h
    have h2 := ih (pre ++ [mv]) _ h1
    rw [List.foldl_cons]
    have : pre ++ [mv] ++ rest = pre ++ mv :: rest := by simp
    rw [this] at h2
    exact h2

/-- C8: `recommend_move` keeps the scored move with the strictly highest
effectiveness over the non-empty (and registry-known) move slots, ties
resolved to the first in move order; it returns the move and its
multiplier exactly when the best effectiveness exceeds 1, and `none`
otherwise — including when moves exist. -/
theorem recommend_move_spec (s : BattleState) (pk : Pokemon)
    (enemy_name : String) :
    (recommend_move s pk enemy_name = none ∧
      ∀ m ∈ scored_moves pk.moves,
        move_eff s (enemy_types_of enemy_name) m ≤ 1) ∨
    (∃ mv l1 l2, recommend_move s pk enemy_name =
        some (mv, move_eff s (enemy_types_of enemy_name) mv) ∧
      1 < move_eff s (enemy_types_of enemy_name) mv ∧
      scored_moves pk.moves = l1 ++ mv :: l2 ∧
      (∀ m ∈ l1, move_eff s (enemy_types_of enemy_name) m <
        move_eff s (enemy_types_of enemy_name) mv) ∧
      (∀ m ∈ scored_moves pk.moves,
        move_eff s (enemy_types_of enemy_name) m ≤
          move_eff s (enemy_types_of enemy_name) mv)) := by
  by_cases hempty : enemy_types_of enemy_name = []
  · left
    constructor
    · simp only [recommend_move, if_pos hempty]
    · intro m hm
      rw [hempty, move_eff_nil]
  · have hinv := rec_fold_inv s (enemy_types_of enemy_name) pk.moves [] (none, 0)
      (Or.inl ⟨rfl, by simp [scored_moves]⟩)
    rw [List.nil_append] at hinv
    rcases hinv with ⟨hacc, hall⟩ | ⟨mv, l1, l2, hacc, hdec, hpos, hlt, hle⟩
    · left
      constructor
      · simp only [recommend_move, if_neg hempty, hacc]
      · intro m hm
        exact le_trans (hall m hm) (by norm_num)
    · by_cases hgt : 1 < move_eff s (enemy_types_of enemy_name) mv
      · right
        refine ⟨mv, l1, l2, ?_, hgt, hdec, hlt, hle⟩
        simp only [recommend_move, if_neg hempty, hacc]
        rw [if_pos hgt]
      · left
        constructor
        · simp only [recommend_move, if_neg hempty, hacc]
          rw [if_neg hgt]
        · intro m hm
          exact le_trans (hle m hm) (not_lt.mp hgt)


/-! ## GoalPlanner (src/agent/planning/goal_planner.py) -/

/-- The `GoalStatus` enum. -/
inductive GoalStatus
  | pending
  | active
  | in_progress
  | completed
  | failed
  | blocked
deriving DecidableEq, Repr

/-- A goal record.  Timestamps (`time.time()`) are modelled as abstract
naturals supplied by the caller. -/
structure Goal where
  id : String
  name : String
  description : String
  status : GoalStatus := GoalStatus.pending
  priority : Int := 5
  parent_id : Option String := none
  children_ids : List String := []
  prerequisites : List String := []
  notes : List String := []
  attempts : Nat := 0
  max_attempts : Nat := 10
  created_at : Nat := 0
  completed_at : Option Nat := none
deriving DecidableEq, Repr

/-- The planner state: the insertion-ordered goal dictionary plus the id
counter — exactly the data `_save`/`_load` persist. -/
structure PlannerState where
  goals : List (String × Goal)
  id_counter : Nat
deriving DecidableEq, Repr

/-- A fresh planner (no persisted document, `_load` starts empty). -/
def GoalPlanner.init : PlannerState := { goals := [], id_counter := 0 }

/-- Python string truthiness for optional id fields: `None` and `""` are
falsy. -/
def falsy : Option String → Bool
  | none => true
  | some str => str == ""

/-- Replace the value stored under a key, keeping dict insertion order
(the model of mutating a value in a Python dict). -/
def setG : List (String × Goal) → String → Goal → List (String × Goal)
  | [], _, _ => []
  | p :: rest, key, g => (if p.1 = key then (key, g) else p) :: setG rest key g

/-- `GoalPlanner.add_goal`: mint `goal_<counter>`, append the record, and
register it with its parent when one is given and present. -/
def add_goal (s : PlannerState) (name description : String)
    (priority : Int := 5) (parent_id : Option String := none)
    (prerequisites : List String := []) (now : Nat := 0) :
    String × PlannerState :=
  let counter := s.id_counter + 1
  let goal_id := "goal_" ++ toString counter
  let goal : Goal :=
    { id := goal_id
      name := name
      description := description
      priority := priority
      parent_id := parent_id
      prerequisites := prerequisites
      created_at := now }
  let s1 : PlannerState :=
    { id_counter := counter, goals := s.goals ++ [(goal_id, goal)] }
  match parent_id with
  | some pid =>
    if pid ≠ "" then
      match alookup s1.goals pid with
      | some pg =>
        let pg1 := { pg with children_ids := pg.children_ids ++ [goal_id] }
        (goal_id, { s1 with goals := setG s1.goals pid pg1 })
      | none => (goal_id, s1)
    else (goal_id, s1)
  | none => (goal_id, s1)

/-- One element of the `subgoals` list handed to `add_subgoals`. -/
structure SubgoalSpec where
  name : String
  description : String
  priority : Int := 5
  prerequisites : List String := []
  sequential : Bool := false
deriving DecidableEq, Repr

/-- The loop of `GoalPlanner.add_subgoals`, threading the previous step's
id: a step flagged sequential gains that id as an extra prerequisite. -/
def add_subgoals_go (parent_id : String) (now : Nat) :
    PlannerState → Option String → List SubgoalSpec → List String × PlannerState
  | s, _, [] => ([], s)
  | s, prev_id, sg :: rest =>
    let prereqs :=
      if sg.sequential = true ∧ falsy prev_id = false then
        sg.prerequisites ++ [prev_id.getD ""]
      else sg.prerequisites
    let r := add_goal s sg.name sg.description sg.priority (some parent_id) prereqs now
    let rest_r := add_subgoals_go parent_id now r.2 (some r.1) rest
    (r.1 :: rest_r.1, rest_r.2)

/-- `GoalPlanner.add_subgoals`. -/
def add_subgoals (s : PlannerState) (parent_id : String)
    (subgoals : List SubgoalSpec) (now : Nat := 0) :
    List String × PlannerState :=
  add_subgoals_go parent_id now s none subgoals

/-- `GoalPlanner.complete_goal`, fuelled: one unit of fuel per recursive
parent completion.  The parent graph of every reachable tree is acyclic,
so the wrapper's fuel (`size + 1`) covers any ancestor chain. -/
def complete_goal_fuel : Nat → PlannerState → String → String → Nat → PlannerState
  | 0, s, _, _, _ => s
  | fuel + 1, s, goal_id, notes, now =>
    match alookup s.goals goal_id with
    | none => s
    | some goal =>
      let goal1 :=
        { goal with
          status := GoalStatus.completed
          completed_at := some now
          notes := if notes ≠ "" then goal.notes ++ ["Completed: " ++ notes]
            else goal.notes }
      let s1 : PlannerState := { s with goals := setG s.goals goal_id goal1 }
      match goal1.parent_id with
      | some pid =>
        if pid ≠ "" then
          match alookup s1.goals pid with
          | some parent =>
            if parent.children_ids.all (fun cid =>
                match alookup s1.goals cid with
                | some c => c.status == GoalStatus.completed
                | none => true) then
              complete_goal_fuel fuel s1 pid "All sub-goals completed" now
            else s1
          | none => s1
        else s1
      | none => s1

/-- `GoalPlanner.complete_goal`. -/
def complete_goal (s : PlannerState) (goal_id : String)
    (notes : String := "") (now : Nat := 0) : PlannerState :=
  complete_goal_fuel (s.goals.length + 1) s goal_id notes now

/-- `GoalPlanner.fail_goal`: bump `attempts`; permanent failure once the
bound is reached, otherwise back to pending for a retry. -/
def fail_goal (s : PlannerState) (goal_id : String) (reason : String := "") :
    PlannerState :=
  match alookup s.goals goal_id with
  | none => s
  | some goal =>
    let attempts := goal.attempts + 1
    let goal1 :=
      if goal.max_attempts ≤ attempts then
        { goal with
          attempts := attempts
          status := GoalStatus.failed
          notes := goal.notes ++ ["Failed permanently: " ++ reason] }
      else
        { goal with
          attempts := attempts
          status := GoalStatus.pending
          notes := goal.notes ++
            ["Attempt " ++ toString attempts ++ " failed: " ++ reason] }
    { s with goals := setG s.goals goal_id goal1 }

/-- `GoalPlanner.block_goal`. -/
def block_goal (s : PlannerState) (goal_id : String) (reason : String) :
    PlannerState :=
  match alookup s.goals goal_id with
  | none => s
  | some goal =>
    let goal1 := { goal with
      status := GoalStatus.blocked
      notes := goal.notes ++ ["Blocked: " ++ reason] }
    { s with goals := setG s.goals goal_id goal1 }

/-- `GoalPlanner._prerequisites_met`. -/
def prerequisites_met (s : PlannerState) (goal : Goal) : Bool :=
  goal.prerequisites.all fun prereq_id =>
    match alookup s.goals prereq_id with
    | some prereq => prereq.status == GoalStatus.completed
    | none => false

/-- `GoalPlanner._get_next_child`, fuelled (a unit of fuel per examined
child id, walking sibling lists and descending alike). -/
def get_next_child_list : Nat → PlannerState → List String → Option Goal × PlannerState
  | 0, s, _ => (none, s)
  | _ + 1, s, [] => (none, s)
  | fuel + 1, s, cid :: rest =>
    match alookup s.goals cid with
    | none => get_next_child_list fuel s rest
    | some child =>
      if child.status = GoalStatus.active ∨ child.status = GoalStatus.in_progress then
        if child.children_ids ≠ [] then
          match get_next_child_list fuel s child.children_ids with
          | (some deeper, s1) => (some deeper, s1)
          | (none, s1) => (some child, s1)
        else (some child, s)
      else if child.status = GoalStatus.pending ∧ prerequisites_met s child = true then
        let child1 := { child with status := GoalStatus.active }
        (some child1, { s with goals := setG s.goals cid child1 })
      else get_next_child_list fuel s rest

/-- Fuel amply covering `_get_next_child`'s recursion on a reachable
(acyclic, duplicate-free) tree: every examined child id consumes one unit
and each stored child id is examined at most once. -/
def planner_fuel (s : PlannerState) : Nat :=
  s.goals.foldl (fun n p => n + p.2.children_ids.length + 1) 1

/-- `GoalPlanner._select_next_goal`: stable sort of the eligible root
goals by ascending priority (Python's `list.sort` is stable; the model
uses insertion sort, which is also stable). -/
def select_next_goal (s : PlannerState) : Option Goal × PlannerState :=
  let candidates := (s.goals.map Prod.snd).filter fun g =>
    g.status == GoalStatus.pending && falsy g.parent_id && prerequisites_met s g
  if candidates = [] then (none, s)
  else
    match candidates.insertionSort (fun a b => a.priority ≤ b.priority) with
    | [] => (none, s)
    | best :: _ =>
      let best1 := { best with status := GoalStatus.active }
      (some best1, { s with goals := setG s.goals best.id best1 })

/-- The scan of `GoalPlanner.get_current_goal` over the goal dict in
insertion order. -/
def get_current_goal_list (s : PlannerState) :
    List (String × Goal) → Option Goal × PlannerState
  | [] => select_next_goal s
  | (_, goal) :: rest =>
    if goal.status = GoalStatus.active ∨ goal.status = GoalStatus.in_progress then
      if goal.children_ids ≠ [] then
        match get_next_child_list (planner_fuel s) s goal.children_ids with
        | (some child, s1) => (some child, s1)
        | (none, s1) => (some goal, s1)
      else (some goal, s)
    else get_current_goal_list s rest

/-- `GoalPlanner.get_current_goal`. -/
def get_current_goal (s : PlannerState) : Option Goal × PlannerState :=
  get_current_goal_list s s.goals

/-- Status of a goal id in a planner state. -/
def statusOf (s : PlannerState) (gid : String) : Option GoalStatus :=
  (alookup s.goals gid).map Goal.status


/-- Keys other than the replaced one are unaffected by `setG`. -/
theorem alookup_setG_ne (gs : List (String × Goal)) (key : String) (v : Goal)
    (x : String) (hne : x ≠ key) :
    alookup (setG gs key v) x = alookup gs x := by
  induction gs with
  | nil => rfl
  | cons p rest ih =>
    rw [setG]
    by_cases hk1 : p.1 = key
    · have h1 : ¬ key = x := fun h => hne h.symm
      have h2 : ¬ p.1 = x := by
        rw [hk1]
        exact h1
      rw [if_pos hk1]
      show (if key = x then some v else alookup (setG rest key v) x) =
        alookup (p :: rest) x
      rw [if_neg h1, alookup, if_neg h2, ih]
    · rw [if_neg hk1]
      show (if p.1 = x then some p.2 else alookup (setG rest key v) x) =
        alookup (p :: rest) x
      rw [alookup]
      by_cases hx : p.1 = x
      · rw [if_pos hx, if_pos hx]
      · rw [if_neg hx, if_neg hx, ih]

/-- Replacing a present key makes its lookup return the new value. -/
theorem alookup_setG_self (gs : List (String × Goal)) (key : String)
    (v g : Goal) (hk : alookup gs key = some g) :
    alookup (setG gs key v) key = some v := by
  induction gs with
  | nil => simp [alookup] at hk
  | cons p rest ih =>
    by_cases hk1 : p.1 = key
    · rw [setG, if_pos hk1]
      show (if key = key then some v else alookup (setG rest key v) key) = some v
      rw [if_pos rfl]
    · rw [alookup, if_neg hk1] at hk
      rw [setG, if_neg hk1]
      show (if p.1 = key then some p.2 else alookup (setG rest key v) key) = some v
      rw [if_neg hk1, ih hk]

/-- A successful lookup exhibits a stored pair. -/
theorem alookup_mem (gs : List (String × Goal)) (k : String) (v : Goal)
    (h : alookup gs k = some v) : (k, v) ∈ gs := by
  induction gs with
  | nil => simp [alookup] at h
  | cons p rest ih =>
    obtain ⟨p1, p2⟩ := p
    rw [alookup] at h
    by_cases hk : p1 = k
    · rw [if_pos hk] at h
      injection h with h
      subst hk
      subst h
      exact List.mem_cons_self _ _
    · rw [if_neg hk] at h
      exact List.mem_cons_of_mem _ (ih h)

/-- With duplicate-free keys, a stored pair is what lookup returns. -/
theorem alookup_of_mem_nodup (gs : List (String × Goal)) (k : String) (v : Goal)
    (hnd : (gs.map Prod.fst).Nodup) (hm : (k, v) ∈ gs) :
    alookup gs k = some v := by
  induction gs with
  | nil => simp at hm
  | cons p rest ih =>
    rw [List.map_cons, List.nodup_cons] at hnd
    rcases List.mem_cons.mp hm with rfl | hm2
    · rw [alookup, if_pos rfl]
    · have hk : p.1 ≠ k := by
        intro hk
        exact hnd.1 (hk ▸ List.mem_map.mpr ⟨(k, v), hm2, rfl⟩)
      rw [alookup, if_neg hk]
      exact ih hnd.2 hm2

/-- C10: completing, failing or blocking an absent goal id returns with the
planner state — every goal record, note list and the counter — unchanged
(the model is total, mirroring the source's guarded early returns: no
exception is raised). -/
theorem absent_goal_noop (s : PlannerState) (gid : String)
    (notes reason reason2 : String) (now : Nat)
    (h : alookup s.goals gid = none) :
    complete_goal s gid notes now = s ∧ fail_goal s gid reason = s ∧
      block_goal s gid reason2 = s := by
  refine ⟨?_, ?_, ?_⟩
  · simp only [complete_goal, complete_goal_fuel, h]
  · simp only [fail_goal, h]
  · simp only [block_goal, h]

/-- Witness for C10 at a concrete state: the id `goal_9` is absent from a
one-goal planner. -/
theorem absent_goal_noop_witness :
    complete_goal (add_goal GoalPlanner.init "A" "d" 5 none [] 0).2 "goal_9" "n" 0 =
        (add_goal GoalPlanner.init "A" "d" 5 none [] 0).2 ∧
      fail_goal (add_goal GoalPlanner.init "A" "d" 5 none [] 0).2 "goal_9" "r" =
        (add_goal GoalPlanner.init "A" "d" 5 none [] 0).2 ∧
      block_goal (add_goal GoalPlanner.init "A" "d" 5 none [] 0).2 "goal_9" "b" =
        (add_goal GoalPlanner.init "A" "d" 5 none [] 0).2 :=
  absent_goal_noop (add_goal GoalPlanner.init "A" "d" 5 none [] 0).2 "goal_9"
    "n" "r" "b" 0 (by decide)

/-- The exact record stored by one `fail_goal` call on a present goal. -/
theorem fail_goal_lookup (s : PlannerState) (gid reason : String) (g : Goal)
    (hg : alookup s.goals gid = some g) :
    alookup (fail_goal s gid reason).goals gid = some (
      if g.max_attempts ≤ g.attempts + 1 then
        { g with
          attempts := g.attempts + 1
          status := GoalStatus.failed
          notes := g.notes ++ ["Failed permanently: " ++ reason] }
      else
        { g with
          attempts := g.attempts + 1
          status := GoalStatus.pending
          notes := g.notes ++
            ["Attempt " ++ toString (g.attempts + 1) ++ " failed: " ++ reason] }) := by
  by_cases hc : g.max_attempts ≤ g.attempts + 1 <;>
    simp only [fail_goal, hg, hc, reduceIte, if_true, if_false] <;>
    exact alookup_setG_self s.goals gid _ g hg

/-- n successive `fail_goal` calls on the same goal id. -/
def iterate_fail (s : PlannerState) (gid reason : String) : Nat → PlannerState
  | 0 => s
  | n + 1 => fail_goal (iterate_fail s gid reason n) gid reason

/-- C3: every `fail_goal` call on a present goal increments `attempts` by
exactly 1 and keeps `max_attempts`; starting from a fresh goal
(`attempts = 0`, `max_attempts ≥ 1`), after the n-th call (n ≥ 1) the
attempts counter equals n and the status is `pending` while
`n < max_attempts` and `failed` from the call where `attempts` reaches
`max_attempts` onward. -/
theorem fail_goal_spec :
    (∀ (s : PlannerState) (gid reason : String) (g : Goal),
      alookup s.goals gid = some g →
      ∃ g2, alookup (fail_goal s gid reason).goals gid = some g2 ∧
        g2.attempts = g.attempts + 1 ∧ g2.max_attempts = g.max_attempts ∧
        g2.status = (if g.max_attempts ≤ g.attempts + 1 then GoalStatus.failed
          else GoalStatus.pending)) ∧
    (∀ (s : PlannerState) (gid reason : String) (g : Goal) (n : Nat),
      alookup s.goals gid = some g → g.attempts = 0 → 1 ≤ g.max_attempts →
      1 ≤ n →
      ∃ g2, alookup (iterate_fail s gid reason n).goals gid = some g2 ∧
        g2.attempts = n ∧ g2.max_attempts = g.max_attempts ∧
        g2.status = (if n < g.max_attempts then GoalStatus.pending
          else GoalStatus.failed)) := by
  have single : ∀ (s : PlannerState) (gid reason : String) (g : Goal),
      alookup s.goals gid = some g →
      ∃ g2, alookup (fail_goal s gid reason).goals gid = some g2 ∧
        g2.attempts = g.attempts + 1 ∧ g2.max_attempts = g.max_attempts ∧
        g2.status = (if g.max_attempts ≤ g.attempts + 1 then GoalStatus.failed
          else GoalStatus.pending) := by
    intro s gid reason g hg
    refine ⟨_, fail_goal_lookup s gid reason g hg, ?_, ?_, ?_⟩ <;>
      by_cases hc : g.max_attempts ≤ g.attempts + 1 <;>
        simp [hc]
  refine ⟨single, ?_⟩
  intro s gid reason g n hg ha hM hn
  have aux : ∀ m : Nat,
      ∃ g2, alookup (iterate_fail s gid reason (m + 1)).goals gid = some g2 ∧
        g2.attempts = m + 1 ∧ g2.max_attempts = g.max_attempts ∧
        g2.status = (if m + 1 < g.max_attempts then GoalStatus.pending
          else GoalStatus.failed) := by
    intro m
    induction m with
    | zero =>
      rcases single s gid reason g hg with ⟨g2, hlook, hat, hmax, hst⟩
      refine ⟨g2, hlook, by rw [hat, ha], hmax, ?_⟩
      rw [hst, ha]
      by_cases h1 : g.max_attempts ≤ 0 + 1
      · rw [if_pos h1, if_neg (by omega)]
      · rw [if_neg h1, if_pos (by omega)]
    | succ m ih =>
      rcases ih with ⟨g2, hlook, hat, hmax, hst⟩
      rcases single (iterate_fail s gid reason (m + 1)) gid reason g2 hlook
        with ⟨g3, hlook2, hat2, hmax2, hst2⟩
      refine ⟨g3, hlook2, by rw [hat2, hat], by rw [hmax2, hmax], ?_⟩
      rw [hst2, hat, hmax]
      by_cases h1 : g.max_attempts ≤ m + 1 + 1
      · rw [if_pos h1, if_neg (by omega)]
      · rw [if_neg h1, if_pos (by omega)]
  obtain ⟨m, rfl⟩ : ∃ m, n = m + 1 := ⟨n - 1, by omega⟩
  exact aux m

/-- Witness for C3: on a fresh goal with the default bound 10, the third
call leaves it pending with 3 attempts and the tenth marks it failed. -/
theorem fail_goal_spec_witness :
    (∃ g2, alookup (iterate_fail (add_goal GoalPlanner.init "A" "d" 5 none [] 0).2
        "goal_1" "r" 3).goals "goal_1" = some g2 ∧
      g2.attempts = 3 ∧ g2.max_attempts = 10 ∧
      g2.status = (if 3 < 10 then GoalStatus.pending else GoalStatus.failed)) ∧
    (∃ g2, alookup (iterate_fail (add_goal GoalPlanner.init "A" "d" 5 none [] 0).2
        "goal_1" "r" 10).goals "goal_1" = some g2 ∧
      g2.attempts = 10 ∧ g2.max_attempts = 10 ∧
      g2.status = (if 10 < 10 then GoalStatus.pending else GoalStatus.failed)) := by
  constructor
  · rcases fail_goal_spec.2 (add_goal GoalPlanner.init "A" "d" 5 none [] 0).2
      "goal_1" "r" { id := "goal_1", name := "A", description := "d" } 3
      (by decide) (by decide) (by decide) (by decide) with ⟨g2, h1, h2, h3, h4⟩
    exact ⟨g2, h1, h2, by rw [h3], h4⟩
  · rcases fail_goal_spec.2 (add_goal GoalPlanner.init "A" "d" 5 none [] 0).2
      "goal_1" "r" { id := "goal_1", name := "A", description := "d" } 10
      (by decide) (by decide) (by decide) (by decide) with ⟨g2, h1, h2, h3, h4⟩
    exact ⟨g2, h1, h2, by rw [h3], h4⟩


/-- Replacing a present key with a completed record preserves "this goal is
completed" facts. -/
theorem statusOf_setG_completed (s : PlannerState) (key : String) (v g : Goal)
    (hk : alookup s.goals key = some g) (hv : v.status = GoalStatus.completed)
    (q : String) (h : statusOf s q = some GoalStatus.completed) :
    statusOf { s with goals := setG s.goals key v } q =
      some GoalStatus.completed := by
  by_cases hq : q = key
  · subst hq
    rw [statusOf]
    show ((alookup (setG s.goals q v) q).map Goal.status) = _
    rw [alookup_setG_self s.goals q v g hk]
    simp [hv]
  · rw [statusOf]
    show ((alookup (setG s.goals key v) q).map Goal.status) = _
    rw [alookup_setG_ne s.goals key v q hq]
    exact h

/-- One unfolded step of `complete_goal_fuel` on a present goal, stated
without let bindings. -/
theorem complete_goal_fuel_succ (fuel : Nat) (s : PlannerState)
    (gid notes : String) (now : Nat) (goal goal1 : Goal) (s1 : PlannerState)
    (hg : alookup s.goals gid = some goal)
    (hgoal1 : goal1 = { goal with
      status := GoalStatus.completed
      completed_at := some now
      notes := if notes ≠ "" then goal.notes ++ ["Completed: " ++ notes]
        else goal.notes })
    (hs1 : s1 = { s with goals := setG s.goals gid goal1 }) :
    complete_goal_fuel (fuel + 1) s gid notes now =
      (match goal1.parent_id with
      | some pid =>
        if pid ≠ "" then
          match alookup s1.goals pid with
          | some parent =>
            if parent.children_ids.all (fun cid =>
                match alookup s1.goals cid with
                | some c => c.status == GoalStatus.completed
                | none => true) then
              complete_goal_fuel fuel s1 pid "All sub-goals completed" now
            else s1
          | none => s1
        else s1
      | none => s1) := by
  subst hgoal1
  subst hs1
  rw [complete_goal_fuel, hg]

/-- `complete_goal_fuel` only ever sets statuses to `completed`: a goal
already completed stays completed. -/
theorem complete_goal_fuel_keeps_completed :
    ∀ (fuel : Nat) (s : PlannerState) (gid notes : String) (now : Nat)
      (q : String),
      statusOf s q = some GoalStatus.completed →
      statusOf (complete_goal_fuel fuel s gid notes now) q =
        some GoalStatus.completed := by
  intro fuel
  induction fuel with
  | zero =>
    intro s gid notes now q h
    exact h
  | succ fuel ih =>
    intro s gid notes now q h
    rcases hg : alookup s.goals gid with _ | goal
    · rw [complete_goal_fuel, hg]
      exact h
    · rw [complete_goal_fuel_succ fuel s gid notes now goal _ _ hg rfl rfl]
      generalize (if notes ≠ "" then goal.notes ++ ["Completed: " ++ notes]
        else goal.notes) = nts
      have hs1 := statusOf_setG_completed s gid
        { goal with
          status := GoalStatus.completed
          completed_at := some now
          notes := nts } goal hg rfl q h
      split
      · split
        · split
          · split
            · exact ih _ _ _ _ _ hs1
            · exact hs1
          · exact hs1
        · exact hs1
      · exact hs1

/-- Completing a present goal marks it completed, whatever the cascade then
does above it. -/
theorem complete_goal_fuel_completes_self (fuel : Nat) (s : PlannerState)
    (gid notes : String) (now : Nat) (g : Goal)
    (hg : alookup s.goals gid = some g) (hfuel : 0 < fuel) :
    statusOf (complete_goal_fuel fuel s gid notes now) gid =
      some GoalStatus.completed := by
  obtain ⟨f, rfl⟩ : ∃ f, fuel = f + 1 := ⟨fuel - 1, by omega⟩
  rw [complete_goal_fuel_succ f s gid notes now g _ _ hg rfl rfl]
  generalize (if notes ≠ "" then g.notes ++ ["Completed: " ++ notes]
    else g.notes) = nts
  have hs1 : statusOf { s with goals := setG s.goals gid { g with status := GoalStatus.completed, completed_at := some now, notes := nts } } gid = some GoalStatus.completed := by
    rw [statusOf]
    show ((alookup (setG s.goals gid _) gid).map Goal.status) = _
    rw [alookup_setG_self s.goals gid _ g hg]
    rfl
  split
  · split
    · split
      · split
        · exact complete_goal_fuel_keeps_completed f _ _ _ _ _ hs1
        · exact hs1
      · exact hs1
    · exact hs1
  · exact hs1

/-- The cascade precondition along an ancestor chain, checked in a given
state: each link is a parent pointer to a non-empty present id, and every
present child of each ancestor in the chain is either the link below it or
already completed. -/
def cascadeReadyB (s : PlannerState) : String → List String → Bool
  | _, [] => true
  | prev, a :: rest =>
    (a != "") &&
    (match alookup s.goals prev with
     | some g => g.parent_id == some a
     | none => false) &&
    (match alookup s.goals a with
     | some pg => pg.children_ids.all fun cid =>
         match alookup s.goals cid with
         | some c => cid == prev || c.status == GoalStatus.completed
         | none => true
     | none => false) &&
    cascadeReadyB s a rest

/-- Replacing a goal outside the chain with a completed record preserves
the cascade precondition. -/
theorem cascadeReadyB_setG_completed (s : PlannerState) (gid : String)
    (g v : Goal) (hgid : alookup s.goals gid = some g)
    (hv : v.status = GoalStatus.completed) :
    ∀ (chain : List String) (prev : String),
      gid ∉ chain → gid ≠ prev →
      cascadeReadyB s prev chain = true →
      cascadeReadyB { s with goals := setG s.goals gid v } prev chain = true := by
  intro chain
  induction chain with
  | nil =>
    intro prev _ _ _
    rfl
  | cons a rest ih =>
    intro prev hnot hprev hready
    have hga : gid ≠ a := fun h => hnot (h ▸ List.mem_cons_self a rest)
    have hgrest : gid ∉ rest := fun h => hnot (List.mem_cons_of_mem a h)
    simp only [cascadeReadyB, Bool.and_eq_true] at hready ⊢
    obtain ⟨⟨⟨hne, hpar⟩, hkids⟩, hrest⟩ := hready
    refine ⟨⟨⟨hne, ?_⟩, ?_⟩, ih a hgrest hga hrest⟩
    · rcases hpv : alookup s.goals prev with _ | gp
      · rw [hpv] at hpar
        exact absurd hpar (by simp)
      · show (match alookup (setG s.goals gid v) prev with
          | some g => g.parent_id == some a
          | none => false) = true
        rw [(alookup_setG_ne s.goals gid v prev fun h => hprev h.symm).trans hpv]
        rw [hpv] at hpar
        exact hpar
    · rcases hpga : alookup s.goals a with _ | pg
      · rw [hpga] at hkids
        exact absurd hkids (by simp)
      · show (match alookup (setG s.goals gid v) a with
          | some pg => pg.children_ids.all fun cid =>
              match alookup (setG s.goals gid v) cid with
              | some c => cid == prev || c.status == GoalStatus.completed
              | none => true
          | none => false) = true
        rw [(alookup_setG_ne s.goals gid v a fun h => hga h.symm).trans hpga]
        rw [hpga] at hkids
        rw [List.all_eq_true] at hkids ⊢
        intro cid hcid
        by_cases hc : cid = gid
        · subst hc
          show (match alookup (setG s.goals cid v) cid with
            | some c => cid == prev || c.status == GoalStatus.completed
            | none => true) = true
          rw [alookup_setG_self s.goals cid v g hgid]
          simp [hv]
        · show (match alookup (setG s.goals gid v) cid with
            | some c => cid == prev || c.status == GoalStatus.completed
            | none => true) = true
          rw [alookup_setG_ne s.goals gid v cid hc]
          exact hkids cid hcid

/-- Upward cascade of `complete_goal_fuel` along a ready ancestor chain:
the completed goal and every ancestor in the chain end up completed in the
same call. -/
theorem complete_goal_fuel_cascades :
    ∀ (chain : List String) (fuel : Nat) (s : PlannerState)
      (gid notes : String) (now : Nat) (g : Goal),
      alookup s.goals gid = some g →
      cascadeReadyB s gid chain = true →
      (gid :: chain).Nodup →
      chain.length < fuel →
      ∀ a ∈ gid :: chain,
        statusOf (complete_goal_fuel fuel s gid notes now) a =
          some GoalStatus.completed := by
  intro chain
  induction chain with
  | nil =>
    intro fuel s gid notes now g hg _ _ hfuel a ha
    rcases List.mem_singleton.mp ha with rfl
    exact complete_goal_fuel_completes_self fuel s a notes now g hg hfuel
  | cons pid rest ih =>
    intro fuel s gid notes now g hg hready hnd hfuel a ha
    obtain ⟨f, rfl⟩ : ∃ f, fuel = f + 1 := ⟨fuel - 1, by omega⟩
    simp only [cascadeReadyB, Bool.and_eq_true] at hready
    obtain ⟨⟨⟨hne, hpar⟩, hkids⟩, hrest⟩ := hready
    rw [hg] at hpar
    have hpar2 : g.parent_id = some pid := by
      simpa using hpar
    have hne2 : pid ≠ "" := by
      simpa using hne
    have hgp : gid ≠ pid := by
      rw [List.nodup_cons] at hnd
      exact fun h => hnd.1 (h ▸ List.mem_cons_self pid rest)
    have hgrest : gid ∉ rest := by
      rw [List.nodup_cons] at hnd
      exact fun h => hnd.1 (List.mem_cons_of_mem pid h)
    rcases hpg : alookup s.goals pid with _ | pg
    · rw [hpg] at hkids
      exact absurd hkids (by simp)
    rw [hpg] at hkids
    rw [complete_goal_fuel_succ f s gid notes now g _ _ hg rfl rfl]
    generalize (if notes ≠ "" then g.notes ++ ["Completed: " ++ notes]
      else g.notes) = nts
    set goal1 : Goal := { g with
      status := GoalStatus.completed
      completed_at := some now
      notes := nts } with hgoal1
    have hppid : goal1.parent_id = some pid := hpar2
    have hpg1 : alookup (setG s.goals gid goal1) pid = some pg :=
      (alookup_setG_ne s.goals gid goal1 pid fun h => hgp h.symm).trans hpg
    have hs1c : statusOf { s with goals := setG s.goals gid goal1 } gid =
        some GoalStatus.completed := by
      rw [statusOf]
      show ((alookup (setG s.goals gid goal1) gid).map Goal.status) = _
      rw [alookup_setG_self s.goals gid goal1 g hg]
      rfl
    split
    · rename_i x heq
      rw [hppid] at heq
      injection heq with hx
      subst hx
      rw [if_pos hne2]
      split
      · rename_i pg2 hpg2
        have hpg3 : pg2 = pg := by
          exact Option.some.inj (hpg2.symm.trans hpg1)
        subst hpg3
        have hall : (pg2.children_ids.all fun cid =>
            match alookup (setG s.goals gid goal1) cid with
            | some c => c.status == GoalStatus.completed
            | none => true) = true := by
          rw [List.all_eq_true]
          intro cid hcid
          by_cases hc : cid = gid
          · subst hc
            show (match alookup (setG s.goals cid goal1) cid with
              | some c => c.status == GoalStatus.completed
              | none => true) = true
            rw [alookup_setG_self s.goals cid goal1 g hg]
            rfl
          · show (match alookup (setG s.goals gid goal1) cid with
              | some c => c.status == GoalStatus.completed
              | none => true) = true
            rw [alookup_setG_ne s.goals gid goal1 cid hc]
            have h3 := List.all_eq_true.mp hkids cid hcid
            revert h3
            rcases alookup s.goals cid with _ | c
            · intro
              rfl
            · intro h3
              simp only [Bool.or_eq_true] at h3
              rcases h3 with h3 | h3
              · exact absurd (by simpa using h3) hc
              · simpa using h3
        rw [if_pos hall]
        rcases List.mem_cons.mp ha with rfl | ha2
        · exact complete_goal_fuel_keeps_completed f _ _ _ _ _ hs1c
        · refine ih f { s with goals := setG s.goals gid goal1 } pid
            "All sub-goals completed" now pg2 hpg1 ?_ ?_ ?_ a ha2
          · exact cascadeReadyB_setG_completed s gid g goal1 hg rfl rest pid
              hgrest hgp hrest
          · rw [List.nodup_cons] at hnd
            exact hnd.2
          · simp only [List.length_cons] at hfuel
            omega
      · rename_i hpg2
        rw [hpg1] at hpg2
        exact Option.noConfusion hpg2
    · rename_i heq
      rw [hppid] at heq
      exact Option.noConfusion heq

/-- C4: when a `complete_goal` call makes every present child of the
parent completed, the parent becomes completed in the same call, and this
cascades transitively up the ready ancestor chain. -/
theorem complete_goal_cascades (s : PlannerState) (gid : String)
    (chain : List String) (notes : String) (now : Nat) (g : Goal)
    (hg : alookup s.goals gid = some g)
    (hready : cascadeReadyB s gid chain = true)
    (hnd : (gid :: chain).Nodup)
    (hlen : chain.length ≤ s.goals.length) :
    ∀ a ∈ gid :: chain,
      statusOf (complete_goal s gid notes now) a = some GoalStatus.completed := by
  intro a ha
  exact complete_goal_fuel_cascades chain (s.goals.length + 1) s gid notes now g
    hg hready hnd (by omega) a ha

/-- A two-goal tree for the C4 witness: `goal_1` is the root, `goal_2` its
only child. -/
def c4_s : PlannerState :=
  (add_goal (add_goal GoalPlanner.init "Root" "" 1 none [] 0).2 "Child" ""
    5 (some "goal_1") [] 0).2

/-- Witness for C4: completing the only child completes the parent in the
same call. -/
theorem complete_goal_cascades_witness :
    statusOf (complete_goal c4_s "goal_2" "" 0) "goal_2" =
      some GoalStatus.completed ∧
    statusOf (complete_goal c4_s "goal_2" "" 0) "goal_1" =
      some GoalStatus.completed := by
  have h := complete_goal_cascades c4_s "goal_2" ["goal_1"] "" 0
    { id := "goal_2", name := "Child", description := "",
      parent_id := some "goal_1" } (by decide) (by decide) (by decide)
    (by decide)
  exact ⟨h "goal_2" (List.mem_cons_self _ _),
    h "goal_1" (List.mem_cons_of_mem _ (List.mem_cons_self _ _))⟩


/-- C1 counterexample trace: goal A (`goal_1`), then goal B (`goal_2`) with
prerequisite A; A is completed; a `get_current_goal` call activates B; then
A is blocked while B stays active. -/
def c1_s2 : PlannerState :=
  (add_goal (add_goal GoalPlanner.init "A" "" 5 none [] 0).2 "B" "" 5 none
    ["goal_1"] 0).2

/-- State after completing A. -/
def c1_s3 : PlannerState := complete_goal c1_s2 "goal_1" "" 0

/-- State after `get_current_goal` activated B. -/
def c1_s4 : PlannerState := (get_current_goal c1_s3).2

/-- State after A was blocked again. -/
def c1_s5 : PlannerState := block_goal c1_s4 "goal_1" "resource lost"

/-- C1 counterexample: in the reachable state `c1_s5`, `get_current_goal`
returns the still-active goal B whose prerequisite `goal_1` is `blocked`,
not `completed`. -/
theorem get_current_goal_prereq_cex :
    ((get_current_goal c1_s5).1.map Goal.prerequisites) = some ["goal_1"] ∧
    ((get_current_goal c1_s5).1.map Goal.status) = some GoalStatus.active ∧
    statusOf c1_s5 "goal_1" = some GoalStatus.blocked ∧
    statusOf c1_s5 "goal_1" ≠ some GoalStatus.completed := by
  decide

/-- `_select_next_goal` only activates candidates that passed the
prerequisite filter. -/
theorem select_next_goal_activation (s : PlannerState) (g : Goal)
    (hres : (select_next_goal s).1 = some g) :
    prerequisites_met s g = true := by
  rw [select_next_goal] at hres
  by_cases hc : (s.goals.map Prod.snd).filter (fun g =>
      g.status == GoalStatus.pending && falsy g.parent_id &&
        prerequisites_met s g) = []
  · rw [if_pos hc] at hres
    exact Option.noConfusion hres
  · rw [if_neg hc] at hres
    rcases hsort : ((s.goals.map Prod.snd).filter (fun g =>
        g.status == GoalStatus.pending && falsy g.parent_id &&
          prerequisites_met s g)).insertionSort
        (fun a b => a.priority ≤ b.priority) with _ | ⟨best, tail⟩
    · rw [hsort] at hres
      exact Option.noConfusion hres
    · rw [hsort] at hres
      have hbest : best ∈ (s.goals.map Prod.snd).filter (fun g =>
          g.status == GoalStatus.pending && falsy g.parent_id &&
            prerequisites_met s g) :=
        (List.mem_insertionSort _).mp (hsort ▸ List.mem_cons_self best tail)
      have hprop := List.of_mem_filter hbest
      have hpm : prerequisites_met s best = true := by
        simp only [Bool.and_eq_true] at hprop
        exact hprop.2
      have hgb : g = { best with status := GoalStatus.active } := by
        simpa using hres.symm
      rw [hgb]
      exact hpm

/-- `_get_next_child` only activates children that passed the prerequisite
check: a returned goal that was pending at entry has its prerequisites
completed. -/
theorem get_next_child_activation :
    ∀ (fuel : Nat) (s : PlannerState) (cids : List String) (g : Goal),
      (∀ p ∈ s.goals, (Prod.snd p).id = Prod.fst p) →
      (List.map Prod.fst s.goals).Nodup →
      (get_next_child_list fuel s cids).1 = some g →
      statusOf s g.id = some GoalStatus.pending →
      prerequisites_met s g = true := by
  intro fuel
  induction fuel with
  | zero =>
    intro s cids g _ _ hres _
    rw [get_next_child_list] at hres
    exact Option.noConfusion hres
  | succ fuel ih =>
    intro s cids g hids hnd hres hpend
    rcases cids with _ | ⟨cid, rest⟩
    · rw [get_next_child_list] at hres
      exact Option.noConfusion hres
    · rw [get_next_child_list] at hres
      rcases hcg : alookup s.goals cid with _ | child
      · rw [hcg] at hres
        simp only [] at hres
        exact ih s rest g hids hnd hres hpend
      · rw [hcg] at hres
        simp only [] at hres
        by_cases hstat : child.status = GoalStatus.active ∨
            child.status = GoalStatus.in_progress
        · rw [if_pos hstat] at hres
          have hchildid : child.id = cid :=
            hids (cid, child) (alookup_mem s.goals cid child hcg)
          have hcontra : child = g → False := by
            intro hgg
            rw [← hgg, hchildid] at hpend
            have hstat0 : statusOf s cid = some child.status := by
              rw [statusOf, hcg]
              rfl
            rw [hstat0] at hpend
            have h2 := Option.some.inj hpend
            rcases hstat with h | h <;> rw [h] at h2 <;>
              exact GoalStatus.noConfusion h2
          by_cases hkids : child.children_ids ≠ []
          · rw [if_pos hkids] at hres
            rcases hdeep : get_next_child_list fuel s child.children_ids
              with ⟨od, s1⟩
            rw [hdeep] at hres
            rcases od with _ | deeper
            · exact absurd (by simpa using hres) fun h => hcontra h
            · have hdg : deeper = g := by simpa using hres
              subst hdg
              exact ih s child.children_ids deeper hids hnd
                (by rw [hdeep]) hpend
          · rw [if_neg hkids] at hres
            exact absurd (by simpa using hres) fun h => hcontra h
        · rw [if_neg hstat] at hres
          by_cases hpm : child.status = GoalStatus.pending ∧
              prerequisites_met s child = true
          · rw [if_pos hpm] at hres
            have hgc : g = { child with status := GoalStatus.active } := by
              simpa using hres.symm
            rw [hgc]
            exact hpm.2
          · rw [if_neg hpm] at hres
            exact ih s rest g hids hnd hres hpend

/-- The scan of `get_current_goal` only hands out pending goals through
the two activation paths, which both check prerequisites. -/
theorem get_current_goal_list_activation :
    ∀ (l : List (String × Goal)) (s : PlannerState) (g : Goal),
      (∀ p ∈ s.goals, (Prod.snd p).id = Prod.fst p) →
      (List.map Prod.fst s.goals).Nodup →
      (∀ p ∈ l, p ∈ s.goals) →
      (get_current_goal_list s l).1 = some g →
      statusOf s g.id = some GoalStatus.pending →
      prerequisites_met s g = true := by
  intro l
  induction l with
  | nil =>
    intro s g _ _ _ hres hpend
    exact select_next_goal_activation s g hres
  | cons p rest ih =>
    intro s g hids hnd hsub hres hpend
    rcases p with ⟨gid0, goal0⟩
    rw [get_current_goal_list] at hres
    by_cases hstat : goal0.status = GoalStatus.active ∨
        goal0.status = GoalStatus.in_progress
    · rw [if_pos hstat] at hres
      have hid0 : goal0.id = gid0 :=
        hids (gid0, goal0) (hsub _ (List.mem_cons_self _ _))
      have hlook : alookup s.goals gid0 = some goal0 :=
        alookup_of_mem_nodup s.goals gid0 goal0 hnd
          (hsub _ (List.mem_cons_self _ _))
      have hcontra : goal0 = g → False := by
        intro hgg
        rw [← hgg, hid0] at hpend
        have hstat0 : statusOf s gid0 = some goal0.status := by
          rw [statusOf, hlook]
          rfl
        rw [hstat0] at hpend
        have h2 := Option.some.inj hpend
        rcases hstat with h | h <;> rw [h] at h2 <;>
          exact GoalStatus.noConfusion h2
      by_cases hkids : goal0.children_ids ≠ []
      · rw [if_pos hkids] at hres
        rcases hdeep : get_next_child_list (planner_fuel s) s goal0.children_ids
          with ⟨od, s1⟩
        rw [hdeep] at hres
        rcases od with _ | child
        · exact absurd (by simpa using hres) fun h => hcontra h
        · have hdg : child = g := by simpa using hres
          subst hdg
          exact get_next_child_activation (planner_fuel s) s goal0.children_ids
            child hids hnd (by rw [hdeep]) hpend
      · rw [if_neg hkids] at hres
        exact absurd (by simpa using hres) fun h => hcontra h
    · rw [if_neg hstat] at hres
      exact ih s g hids hnd (fun q hq => hsub q (List.mem_cons_of_mem _ hq))
        hres hpend

/-- C1 (amended): any goal returned by `get_current_goal` that was pending
at the start of the call — that is, any goal the call newly activates —
has every prerequisite completed at that moment.  (A goal that is already
active or in progress is returned without re-checking, so a prerequisite
un-completed after activation can accompany the returned goal; see the
counterexample.)  The hypotheses — stored ids match their keys and keys
are duplicate-free — hold in every reachable planner state. -/
theorem get_current_goal_activation (s : PlannerState) (g : Goal)
    (hids : ∀ p ∈ s.goals, (Prod.snd p).id = Prod.fst p)
    (hnd : (List.map Prod.fst s.goals).Nodup)
    (hres : (get_current_goal s).1 = some g)
    (hpend : statusOf s g.id = some GoalStatus.pending) :
    prerequisites_met s g = true :=
  get_current_goal_list_activation s.goals s g hids hnd (fun _ h => h)
    hres hpend

/-- The record `get_current_goal` returns when it activates B in `c1_s3`. -/
def c1_goal2A : Goal :=
  { id := "goal_2", name := "B", description := "",
    status := GoalStatus.active, prerequisites := ["goal_1"] }

/-- Witness for the amended C1 theorem: the activation of B out of `c1_s3`
happens with its prerequisite A completed. -/
theorem get_current_goal_activation_witness :
    prerequisites_met c1_s3 c1_goal2A = true :=
  get_current_goal_activation c1_s3 c1_goal2A (by decide) (by decide)
    (by decide) (by decide)

end PokemonAI
